import Mathlib

/-!
Shallow embedding of the `irp_integration` client library (risk-platform
integration) and proofs about the behaviours its specification describes.

Pure request-shaping logic is translated directly from the Python source
(`analysis.py`, `edm.py`, `portfolio.py`, `treaty.py`, `s3.py`,
`irp_integration/databridge.py`, `constants.py`).  Network calls are modelled by
environment records supplying the responses the code would receive, and the
requests a function issues are returned explicitly so that statements such as
"no request is made to endpoint X" are expressible.  All string scanning is
implemented by structural recursion over `List Char` so that concrete instances
evaluate inside the kernel.
-/

deriving instance DecidableEq for Except

namespace Irp

/-! ## Generic string helpers (Python string semantics over code points) -/

/-- Python slicing `s[:n]` (by code points). -/
def pySlice (n : Nat) (s : String) : String := String.mk (s.toList.take n)

/-- Does `hay` start with `needle`? (`List Char` version, structural). -/
def listStartsWith : List Char → List Char → Bool
  | [], _ => true
  | _ :: _, [] => false
  | a :: as, b :: bs => a = b && listStartsWith as bs

/-- Python `needle in hay` substring test, structural on `hay`. -/
def listHasInfix (needle : List Char) : List Char → Bool
  | [] => listStartsWith needle []
  | c :: t => listStartsWith needle (c :: t) || listHasInfix needle t

/-- Python `needle in hay` on strings. -/
def containsSubstr (hay needle : String) : Bool :=
  listHasInfix needle.toList hay.toList

/-- Source: `listSplitFirst sep cs`: split `cs` at the first occurrence of `sep`,
returning the parts before and after it (Python `s.split(sep, 1)` when it
finds a separator). -/
def listSplitFirst (sep : List Char) : List Char → Option (List Char × List Char)
  | [] => if sep = [] then some ([], []) else none
  | c :: t =>
    if listStartsWith sep (c :: t) then some ([], (c :: t).drop sep.length)
    else match listSplitFirst sep t with
      | some (pre, post) => some (c :: pre, post)
      | none => none

/-- Python `s.split(sep, 1)` flavoured helper on strings. -/
def splitFirst (sep s : String) : Option (String × String) :=
  (listSplitFirst sep.toList s.toList).map fun p => (String.mk p.1, String.mk p.2)

/-- Python `s.startswith(p)` on strings. -/
def pyStartsWith (s p : String) : Bool := listStartsWith p.toList s.toList

/-- Split a list of chars on the comma character, Python `s.split(",")`
semantics (the empty string yields `[""]`). -/
def splitCommaAux (cur : List Char) : List Char → List String
  | [] => [String.mk cur.reverse]
  | c :: t => if c = ',' then String.mk cur.reverse :: splitCommaAux [] t
              else splitCommaAux (c :: cur) t

/-- Python `s.split(",")`. -/
def splitComma (s : String) : List String := splitCommaAux [] s.toList

/-- Lexicographic (code-point) `≤` on char lists, Python string comparison. -/
def charListLe : List Char → List Char → Bool
  | [], _ => true
  | _ :: _, [] => false
  | a :: as, b :: bs =>
    if a.val < b.val then true
    else if b.val < a.val then false
    else charListLe as bs

/-- Python string `s ≤ t`. -/
def strLe (s t : String) : Bool := charListLe s.toList t.toList

/-- Insert into a descending-sorted list, keeping it descending. -/
def insertDesc (x : String) : List String → List String
  | [] => [x]
  | y :: t => if strLe y x then x :: y :: t else y :: insertDesc x t

/-- Python `sorted(l, reverse=True)` for strings (descending lexical order). -/
def sortDesc : List String → List String
  | [] => []
  | x :: t => insertDesc x (sortDesc t)

/-- Python `",".join(l)`. -/
def joinComma : List String → String
  | [] => ""
  | [s] => s
  | s :: t => s ++ "," ++ joinComma t

/-! ## Error taxonomy (`irp_integration/exceptions.py`), plus the Python built-in
`ValueError`, which `databridge.py` raises unwrapped from its identifier check. -/

inductive IRPError where
  | apiError (msg : String)
  | validationError (msg : String)
  | referenceDataError (msg : String)
  | jobError (msg : String)
  | dataBridgeQueryError (msg : String)
  | valueError (msg : String)
deriving DecidableEq, Repr

/-! ## Validation helpers

Modelled from the spec: the `validators` module is not under `src/` (only its
call sites are).  Spec §4.14: "Stateless precondition checks ... each raising a
validation error naming the failing argument when its condition is violated:
non-empty string, positive integer (> 0), non-negative integer (≥ 0),
non-negative float (≥ 0.0), non-empty list". -/

/-- Modelled from the spec: `validators.validate_non_empty_string`. -/
def validate_non_empty_string (value name : String) : Except IRPError Unit :=
  if value = "" then .error (.validationError (name ++ " must be a non-empty string"))
  else .ok ()

/-- Modelled from the spec: `validators.validate_positive_int`. -/
def validate_positive_int (value : Int) (name : String) : Except IRPError Unit :=
  if value ≤ 0 then .error (.validationError (name ++ " must be a positive integer"))
  else .ok ()

/-- Modelled from the spec: `validators.validate_non_negative_int`. -/
def validate_non_negative_int (value : Int) (name : String) : Except IRPError Unit :=
  if value < 0 then .error (.validationError (name ++ " must be a non-negative integer"))
  else .ok ()

/-- Modelled from the spec: `validators.validate_non_negative_float`
(floats are embedded as rationals; no arithmetic is performed on them). -/
def validate_non_negative_float (value : Rat) (name : String) : Except IRPError Unit :=
  if value < 0 then .error (.validationError (name ++ " must be a non-negative number"))
  else .ok ()

/-- Modelled from the spec: `validators.validate_list_not_empty`. -/
def validate_list_not_empty {α : Type} (value : List α) (name : String) : Except IRPError Unit :=
  if value.isEmpty then .error (.validationError (name ++ " must be a non-empty list"))
  else .ok ()

/-! ## Constants (`constants.py`) -/

def WORKFLOW_COMPLETED_STATUSES : List String := ["FINISHED", "FAILED", "CANCELLED"]

def WORKFLOW_IN_PROGRESS_STATUSES : List String :=
  ["QUEUED", "PENDING", "RUNNING", "CANCEL_REQUESTED", "CANCELLING"]

def PERSPECTIVE_CODES : List String := ["GR", "GU", "RL"]

def GET_ANALYSIS_ELT (analysisId : Int) : String :=
  "/platform/riskdata/v1/analyses/" ++ toString analysisId ++ "/elt"

def GET_ANALYSIS_EP (analysisId : Int) : String :=
  "/platform/riskdata/v1/analyses/" ++ toString analysisId ++ "/ep"

def GET_ANALYSIS_STATS (analysisId : Int) : String :=
  "/platform/riskdata/v1/analyses/" ++ toString analysisId ++ "/stats"

def GET_ANALYSIS_PLT (analysisId : Int) : String :=
  "/platform/riskdata/v1/analyses/" ++ toString analysisId ++ "/plt"

def GET_ANALYSIS_REGIONS (analysisId : Int) : String :=
  "/platform/riskdata/v1/analyses/" ++ toString analysisId ++ "/regions"

def TREATY_TYPES : List (String × String) :=
  [("Catastrophe", "CATA"), ("Corporate Catastrophe", "CORP"), ("Non-Catastrophe", "NCAT"),
   ("Quota Share", "QUOT"), ("Stop Loss", "STOP"), ("Surplus Share", "SURP"),
   ("Working Excess", "WORK")]

def TREATY_ATTACHMENT_BASES : List (String × String) :=
  [("Losses Occurring", "L"), ("Risks Attaching", "R")]

def TREATY_ATTACHMENT_LEVELS : List (String × String) :=
  [("Account", "ACCT"), ("Portfolio", "PORT"), ("Policy", "POL"), ("Location", "LOC")]

/-! ## Result-retrieval operations (`analysis.py`: `_validate_perspective_code`,
`get_elt`, `get_ep`, `get_stats`, `get_plt`, `get_regions`)

Each operation is modelled as producing the HTTP request it would issue
(path plus query parameters, in insertion order). -/

inductive ParamValue where
  | s (v : String)
  | i (v : Int)
deriving DecidableEq, Repr

structure HttpRequest where
  path : String
  params : List (String × ParamValue)
deriving DecidableEq, Repr

/-- Source: `AnalysisManager._validate_perspective_code`. -/
def _validate_perspective_code (perspective_code : String) : Except IRPError Unit :=
  if perspective_code ∈ PERSPECTIVE_CODES then .ok ()
  else .error (.validationError
    ("Invalid perspective_code \x27" ++ perspective_code ++ "\x27. Must be one of: GR, GU, RL"))

/-- Source: `AnalysisManager.get_elt` (request construction). -/
def get_elt (analysis_id : Int) (perspective_code : String) (exposure_resource_id : Int)
    (filter : Option String) (limit offset : Option Int) : Except IRPError HttpRequest := do
  validate_positive_int analysis_id "analysis_id"
  _validate_perspective_code perspective_code
  let params := [("perspectiveCode", ParamValue.s perspective_code),
                 ("exposureResourceType", ParamValue.s "PORTFOLIO"),
                 ("exposureResourceId", ParamValue.i exposure_resource_id)]
  let params := match filter with
    | some f => params ++ [("filter", ParamValue.s f)]
    | none => params
  let params := match limit with
    | some l => params ++ [("limit", ParamValue.i l)]
    | none => params
  let params := match offset with
    | some o => params ++ [("offset", ParamValue.i o)]
    | none => params
  .ok (HttpRequest.mk (GET_ANALYSIS_ELT analysis_id) params)

/-- Source: `AnalysisManager.get_ep` (request construction). -/
def get_ep (analysis_id : Int) (perspective_code : String) (exposure_resource_id : Int) :
    Except IRPError HttpRequest := do
  validate_positive_int analysis_id "analysis_id"
  _validate_perspective_code perspective_code
  .ok (HttpRequest.mk (GET_ANALYSIS_EP analysis_id)
    [("perspectiveCode", ParamValue.s perspective_code),
     ("exposureResourceType", ParamValue.s "PORTFOLIO"),
     ("exposureResourceId", ParamValue.i exposure_resource_id)])

/-- Source: `AnalysisManager.get_stats` (request construction). -/
def get_stats (analysis_id : Int) (perspective_code : String) (exposure_resource_id : Int) :
    Except IRPError HttpRequest := do
  validate_positive_int analysis_id "analysis_id"
  _validate_perspective_code perspective_code
  .ok (HttpRequest.mk (GET_ANALYSIS_STATS analysis_id)
    [("perspectiveCode", ParamValue.s perspective_code),
     ("exposureResourceType", ParamValue.s "PORTFOLIO"),
     ("exposureResourceId", ParamValue.i exposure_resource_id)])

/-- Source: `AnalysisManager.get_plt` (request construction; `limit` defaults to 100000). -/
def get_plt (analysis_id : Int) (perspective_code : String) (exposure_resource_id : Int)
    (filter : Option String) (limit offset : Option Int) : Except IRPError HttpRequest := do
  validate_positive_int analysis_id "analysis_id"
  _validate_perspective_code perspective_code
  let params := [("perspectiveCode", ParamValue.s perspective_code),
                 ("exposureResourceType", ParamValue.s "PORTFOLIO"),
                 ("exposureResourceId", ParamValue.i exposure_resource_id),
                 ("limit", ParamValue.i (limit.getD 100000))]
  let params := match filter with
    | some f => params ++ [("filter", ParamValue.s f)]
    | none => params
  let params := match offset with
    | some o => params ++ [("offset", ParamValue.i o)]
    | none => params
  .ok (HttpRequest.mk (GET_ANALYSIS_PLT analysis_id) params)

/-- Source: `AnalysisManager.get_regions` (request construction): takes only an analysis
id and passes no query parameters at all. -/
def get_regions (analysis_id : Int) : Except IRPError HttpRequest := do
  validate_positive_int analysis_id "analysis_id"
  .ok (HttpRequest.mk (GET_ANALYSIS_REGIONS analysis_id) [])

/-! ## Portfolio creation (`portfolio.py`: `create_portfolio`)

The EDM lookup and the duplicate-portfolio search are network calls; their
responses come from a `PortfolioEnv`.  The `description` default embeds a UTC
timestamp (`datetime.now`), supplied by the environment as `nowDescription`. -/

structure EdmSearchRec where
  exposureId : Int
  exposureName : String
deriving DecidableEq, Repr

structure PortfolioSearchRec where
  portfolioId : Int
  uri : String
deriving DecidableEq, Repr

structure PortfolioEnv where
  /-- response of `search_edms(filter=exposureName="<edm_name>")` -/
  edmSearch : List EdmSearchRec
  /-- response of `search_portfolios(..., filter=portfolioName="<portfolio_name>")` -/
  portfolioSearch : List PortfolioSearchRec
  /-- Source: `"Portfolio created via API on " + <UTC timestamp>` default description -/
  nowDescription : String
  /-- id extracted from the Location header of the creation response -/
  createdPortfolioId : Int
deriving Repr

structure PortfolioBody where
  portfolioName : String
  portfolioNumber : String
  description : String
deriving DecidableEq, Repr

/-- Source: `PortfolioManager.create_portfolio`. -/
def create_portfolio (env : PortfolioEnv)
    (edm_name portfolio_name portfolio_number description : String) :
    Except IRPError (Int × PortfolioBody) := do
  validate_non_empty_string edm_name "edm_name"
  validate_non_empty_string portfolio_name "portfolio_name"
  match env.edmSearch with
  | [_e] =>
    if env.portfolioSearch.length > 0 then
      throw (.apiError (toString env.portfolioSearch.length ++ " portfolios found with name " ++
        portfolio_name ++ ", please use a unique name"))
    let portfolio_number := if portfolio_number = "" then portfolio_name else portfolio_number
    let description := if description = "" then env.nowDescription else description
    let data := PortfolioBody.mk portfolio_name (pySlice 20 portfolio_number) description
    .ok (env.createdPortfolioId, data)
  | _ =>
    throw (.apiError ("Expected 1 EDM with name " ++ edm_name ++ ", found " ++
      toString env.edmSearch.length))

/-! ## Treaty creation (`treaty.py`: `create_treaty`)

Only the request-shaping logic is embedded; lookups (EDM, cedant, currency)
are provided by a `TreatyEnv`.  Floats are embedded as rationals. -/

structure CedantRec where
  cedantId : Int
  cedantName : String
deriving DecidableEq, Repr

structure CurrencyRec where
  currencyId : Int
  currencyCode : String
  currencyName : String
deriving DecidableEq, Repr

structure TreatyEnv where
  /-- response of `search_edms(filter=exposureName="<edm_name>")` -/
  edmSearch : List EdmSearchRec
  /-- response of `get_cedants_by_edm(exposure_id)` -/
  cedants : List CedantRec
  /-- response of `get_currency_by_name(currency_name)` -/
  currency : Option CurrencyRec
  /-- id extracted from the Location header of the creation response -/
  createdTreatyId : Int
deriving Repr

structure TreatyBody where
  treatyName : String
  treatyNumber : String
  treatyType : String
  riskLimit : Rat
  occurrenceLimit : Rat
  attachmentPoint : Rat
  effectiveDate : String
  expirationDate : String
  currency : CurrencyRec
  attachmentBasis : String
  attachmentLevel : String
  percentageCovered : Rat
  percentagePlaced : Rat
  percentageRiShare : Rat
  percentageRetention : Rat
  premium : Rat
  numberOfReinstatements : Int
  reinstatementCharge : Rat
  aggregateLimit : Rat
  aggregateDeductible : Rat
  priority : Int
  cedant : CedantRec
deriving DecidableEq, Repr

/-- Source: `TreatyManager.create_treaty` (request-body construction). -/
def create_treaty (env : TreatyEnv)
    (edm_name treaty_name treaty_number treaty_type : String)
    (per_risk_limit occurrence_limit attachment_point : Rat)
    (inception_date expiration_date currency_name attachment_basis attachment_level : String)
    (pct_covered pct_placed pct_share pct_retention premium : Rat)
    (num_reinstatements : Int)
    (pct_reinstatement_charge aggregate_limit aggregate_deductible : Rat)
    (priority : Int) :
    Except IRPError (Int × TreatyBody) := do
  validate_non_empty_string edm_name "edm_name"
  validate_non_empty_string treaty_name "treaty_name"
  validate_non_empty_string treaty_number "treaty_number"
  validate_non_empty_string treaty_type "treaty_type"
  validate_non_empty_string inception_date "inception_date"
  validate_non_empty_string expiration_date "expiration_date"
  validate_non_empty_string currency_name "currency"
  validate_non_empty_string attachment_basis "attachment_basis"
  validate_non_empty_string attachment_level "attachment_level"
  validate_non_negative_float per_risk_limit "per_risk_limit"
  validate_non_negative_float occurrence_limit "occurrence_limit"
  validate_non_negative_float attachment_point "attachment_point"
  validate_non_negative_float pct_covered "pct_covered"
  validate_non_negative_float pct_placed "pct_placed"
  validate_non_negative_float pct_share "pct_share"
  validate_non_negative_float pct_retention "pct_retention"
  validate_non_negative_float premium "premium"
  validate_non_negative_int num_reinstatements "num_reinstatements"
  validate_non_negative_float pct_reinstatement_charge "pct_reinstatement_charge"
  validate_non_negative_float aggregate_limit "aggregate_limit"
  validate_non_negative_float aggregate_deductible "aggregate_deductible"
  match TREATY_TYPES.lookup treaty_type with
  | none => throw (.validationError ("Invalid treaty_type \x27" ++ treaty_type ++ "\x27"))
  | some treaty_type_code =>
  match TREATY_ATTACHMENT_BASES.lookup attachment_basis with
  | none => throw (.validationError ("Invalid attachment_basis \x27" ++ attachment_basis ++ "\x27"))
  | some attachment_basis_code =>
  match TREATY_ATTACHMENT_LEVELS.lookup attachment_level with
  | none => throw (.validationError ("Invalid attachment_level \x27" ++ attachment_level ++ "\x27"))
  | some attachment_level_code =>
  match env.edmSearch with
  | [_e] =>
    match env.cedants with
    | [] => throw (.referenceDataError ("No cedants found for EDM \x27" ++ edm_name ++ "\x27"))
    | [cedant] =>
      match env.currency with
      | none => throw (.apiError ("Missing required fields in currency data for currency \x27" ++
          currency_name ++ "\x27"))
      | some currency_data =>
        let data : TreatyBody :=
          { treatyName := treaty_name
            treatyNumber := pySlice 20 treaty_number
            treatyType := treaty_type_code
            riskLimit := per_risk_limit
            occurrenceLimit := occurrence_limit
            attachmentPoint := attachment_point
            effectiveDate := inception_date
            expirationDate := expiration_date
            currency := currency_data
            attachmentBasis := attachment_basis_code
            attachmentLevel := attachment_level_code
            percentageCovered := pct_covered
            percentagePlaced := pct_placed
            percentageRiShare := pct_share
            percentageRetention := pct_retention
            premium := premium
            numberOfReinstatements := num_reinstatements
            reinstatementCharge := pct_reinstatement_charge
            aggregateLimit := aggregate_limit
            aggregateDeductible := aggregate_deductible
            priority := priority
            cedant := cedant }
        .ok (env.createdTreatyId, data)
    | _ => throw (.referenceDataError ("Multiple cedants found for EDM \x27" ++ edm_name ++ "\x27"))
  | _ =>
    throw (.apiError ("Expected 1 EDM with name \x27" ++ edm_name ++ "\x27, found " ++
      toString env.edmSearch.length))

/-! ## EDM creation (`edm.py`: `validate_unique_edms`, `submit_create_edm_job`,
`submit_create_edm_jobs`)

Each operation additionally returns the ordered list of requests it issued, so
that "checks via an EDM search before the creation job is submitted" is
expressible. -/

structure CreateEdmBody where
  exposureName : String
  serverId : Int
deriving DecidableEq, Repr

inductive EdmRequest where
  /-- Source: `GET SEARCH_EDMS` with an `exposureName IN (...)` filter over these names -/
  | searchEdms (names : List String)
  /-- Source: `GET SEARCH_DATABASE_SERVERS` filtered by this server name -/
  | searchDatabaseServers (serverName : String)
  /-- Source: `GET SEARCH_EXPOSURE_SETS` filtered by this exposure-set name -/
  | searchExposureSets (name : String)
  /-- Source: `POST CREATE_EXPOSURE_SET` -/
  | createExposureSet (name : String)
  /-- Source: `POST CREATE_EDM` (the EDM-creation job submission) -/
  | createEdm (exposureSetId : Int) (body : CreateEdmBody)
deriving DecidableEq, Repr

structure ServerRec where
  serverId : Int
  serverName : String
deriving DecidableEq, Repr

structure ExposureSetRec where
  exposureSetId : Int
  exposureSetName : String
deriving DecidableEq, Repr

structure EdmEnv where
  /-- EDMs existing on the platform (what `search_edms` filters over) -/
  edms : List EdmSearchRec
  /-- registered database servers -/
  servers : List ServerRec
  /-- existing exposure sets -/
  exposureSets : List ExposureSetRec
  /-- id returned when an exposure set is created -/
  createdExposureSetId : Int
  /-- job id extracted from the Location header of the EDM-creation response -/
  createEdmJobId : Int
deriving Repr

/-- Python `", ".join(json.dumps(s) for s in names)`. -/
def joinQuoted : List String → String
  | [] => ""
  | [s] => "\x22" ++ s ++ "\x22"
  | s :: t => "\x22" ++ s ++ "\x22, " ++ joinQuoted t

/-- Source: `EDMManager.validate_unique_edms`: searches for EDMs with any of the
proposed names and raises, naming the offenders, if any exist. -/
def validate_unique_edms (env : EdmEnv) (edm_names : List String) :
    List EdmRequest × Except IRPError Unit :=
  let found := env.edms.filter (fun e => e.exposureName ∈ edm_names)
  ([.searchEdms edm_names],
    if found.length > 0 then
      .error (.apiError ("The following EDMs already exist: " ++
        joinQuoted (found.map (fun e => e.exposureName)) ++ "; please use unique names"))
    else .ok ())

/-- Source: `EDMManager.submit_create_edm_job` (single-EDM path): validates the server,
resolves or creates the exposure set, and submits the creation job.  It performs
no search over existing EDM names. -/
def submit_create_edm_job (env : EdmEnv) (edm_name server_name : String) :
    List EdmRequest × Except IRPError (Int × CreateEdmBody) :=
  match validate_non_empty_string edm_name "edm_name" with
  | .error e => ([], .error e)
  | .ok _ =>
    let servers := env.servers.filter (fun s => s.serverName = server_name)
    let log := [EdmRequest.searchDatabaseServers server_name]
    match servers with
    | [srv] =>
      let log := log ++ [EdmRequest.searchExposureSets edm_name]
      let ess := env.exposureSets.filter (fun s => s.exposureSetName = edm_name)
      let (log, exposure_set_id) :=
        match ess with
        | es :: _ => (log, es.exposureSetId)
        | [] => (log ++ [EdmRequest.createExposureSet edm_name], env.createdExposureSetId)
      let data := CreateEdmBody.mk edm_name srv.serverId
      (log ++ [EdmRequest.createEdm exposure_set_id data], .ok (env.createEdmJobId, data))
    | _ => (log, .error (.referenceDataError ("Database server " ++ server_name ++ " not found")))

structure CreateEdmData where
  server_name : String
  edm_name : String
deriving DecidableEq, Repr

/-- Helper for `submit_create_edm_jobs`: submit each creation job in turn. -/
def submitEachEdm (env : EdmEnv) : List CreateEdmData →
    List EdmRequest × Except IRPError (List Int)
  | [] => ([], .ok [])
  | d :: rest =>
    let (log, res) := submit_create_edm_job env d.edm_name d.server_name
    match res with
    | .error e => (log, .error e)
    | .ok (job_id, _) =>
      let (log2, res2) := submitEachEdm env rest
      (log ++ log2, res2.map (fun ids => job_id :: ids))

/-- Source: `EDMManager.submit_create_edm_jobs` (batch path): validates uniqueness of
all proposed names up front, then submits each creation job. -/
def submit_create_edm_jobs (env : EdmEnv) (edm_data_list : List CreateEdmData) :
    List EdmRequest × Except IRPError (List Int) :=
  match validate_list_not_empty edm_data_list "edm_data" with
  | .error e => ([], .error e)
  | .ok _ =>
    let (vlog, vres) := validate_unique_edms env (edm_data_list.map (fun d => d.edm_name))
    match vres with
    | .error e => (vlog, .error e)
    | .ok _ =>
      let (slog, sres) := submitEachEdm env edm_data_list
      (vlog ++ slog, sres)

/-! ## Analysis-job polling (`analysis.py`: `poll_analysis_job_to_completion`)

One poll iteration fetches the job body and then compares the elapsed
wall-clock time against the timeout.  A run of the loop is driven by the trace
of successive fetches, each carrying the job body returned and the elapsed time
(`time.time() - start`) at the timeout check of that iteration. -/

structure JobData where
  status : String
  progress : String
deriving DecidableEq, Repr

structure PollStep where
  job : JobData
  /-- value of `time.time() - start` at the timeout check of this iteration -/
  elapsed : Int
deriving DecidableEq, Repr

/-- The `while True` body of `poll_analysis_job_to_completion`, driven by the
fetch trace.  `.ok none` means the trace was exhausted with the loop still
running (the real loop would keep polling). -/
def pollLoop (job_id timeout : Int) (fetches sleeps : Nat) :
    List PollStep → Except IRPError (Option (JobData × Nat × Nat))
  | [] => .ok none
  | step :: rest =>
    if step.job.status ∈ WORKFLOW_COMPLETED_STATUSES then
      .ok (some (step.job, fetches + 1, sleeps))
    else if step.elapsed > timeout then
      .error (.jobError ("Analysis job ID " ++ toString job_id ++ " did not complete within " ++
        toString timeout ++ " seconds. Last status: " ++ step.job.status))
    else
      pollLoop job_id timeout (fetches + 1) (sleeps + 1) rest

/-- Source: `AnalysisManager.poll_analysis_job_to_completion`. -/
def poll_analysis_job_to_completion (job_id interval timeout : Int)
    (trace : List PollStep) : Except IRPError (Option (JobData × Nat × Nat)) := do
  validate_positive_int job_id "job_id"
  validate_positive_int interval "interval"
  validate_positive_int timeout "timeout"
  pollLoop job_id timeout 0 0 trace

/-! ## Portfolio-analysis submission (`analysis.py`:
`submit_portfolio_analysis_job`)

Reference-data lookups are supplied by an `AnalysisEnv`; the function returns
the job id and the request body it would POST to `CREATE_ANALYSIS_JOB`. -/

structure ModelProfileItem where
  id : Int
  perilCode : Option String
  modelRegionCode : Option String
  softwareVersionCode : String
deriving DecidableEq, Repr

structure ModelProfileResp where
  count : Nat
  items : List ModelProfileItem
deriving DecidableEq, Repr

structure OutputProfileItem where
  id : Int
deriving DecidableEq, Repr

structure EventRateSchemeItem where
  eventRateSchemeId : Int
deriving DecidableEq, Repr

structure EventRateSchemeResp where
  count : Nat
  items : List EventRateSchemeItem
deriving DecidableEq, Repr

structure TreatySearchRec where
  treatyId : Int
deriving DecidableEq, Repr

structure AnalysisEnv where
  /-- number of hits of the duplicate-name `search_analyses` pre-check -/
  dupSearchCount : Nat
  /-- response of `search_edms(filter=exposureName="<edm_name>")` -/
  edmSearch : List EdmSearchRec
  /-- response of `search_portfolios(..., portfolioName="<portfolio_name>")` -/
  portfolioSearch : List PortfolioSearchRec
  /-- response of `search_treaties(...)` for the given treaty names -/
  treatySearch : List TreatySearchRec
  /-- response of `get_model_profile_by_name(analysis_profile_name)` -/
  modelProfileResp : ModelProfileResp
  /-- response of `get_output_profile_by_name(output_profile_name)` -/
  outputProfileResp : List OutputProfileItem
  /-- response of `get_event_rate_scheme_by_name(...)` -/
  eventRateSchemeResp : EventRateSchemeResp
  /-- result of `get_tag_ids_from_tag_names(tag_names)` -/
  tagIds : List Int
  /-- result of `get_analysis_currency()` -/
  defaultCurrency : String
  /-- job id extracted from the Location header of the submission response -/
  submittedJobId : Int
deriving Repr

structure AnalysisSettings where
  name : String
  modelProfileId : Int
  outputProfileId : Int
  treatyIds : List Int
  tagIds : List Int
  currency : String
  franchiseDeductible : Bool
  minLossThreshold : Rat
  treatConstructionOccupancyAsUnknown : Bool
  numMaxLossEvent : Int
  /-- Source: `eventRateSchemeId` is added to the settings dict only when a scheme was
  resolved; `none` models the key being absent -/
  eventRateSchemeId : Option Int
deriving DecidableEq, Repr

structure AnalysisJobRequest where
  resourceUri : String
  resourceType : String
  type : String
  settings : AnalysisSettings
deriving DecidableEq, Repr

/-- Source: `AnalysisManager.submit_portfolio_analysis_job`.  `event_rate_scheme_name =
none` models an absent (or empty, hence falsy) scheme name. -/
def submit_portfolio_analysis_job (env : AnalysisEnv)
    (edm_name portfolio_name job_name analysis_profile_name output_profile_name : String)
    (event_rate_scheme_name : Option String)
    (treaty_names _tag_names : List String)
    (currency : Option String)
    (skip_duplicate_check franchise_deductible : Bool)
    (min_loss_threshold : Rat)
    (treat_construction_occupancy_as_unknown : Bool)
    (num_max_loss_event : Int) :
    Except IRPError (Int × AnalysisJobRequest) := do
  validate_non_empty_string edm_name "edm_name"
  validate_non_empty_string portfolio_name "portfolio_name"
  validate_non_empty_string job_name "job_name"
  validate_non_empty_string analysis_profile_name "analysis_profile_name"
  validate_non_empty_string output_profile_name "output_profile_name"
  if !skip_duplicate_check && env.dupSearchCount > 0 then
    throw (.apiError ("Analysis with name \x27" ++ job_name ++ "\x27 already exists for EDM \x27" ++
      edm_name ++ "\x27"))
  match env.edmSearch with
  | [_e] =>
    match env.portfolioSearch with
    | [pf] =>
      let treaty_ids ←
        if treaty_names.isEmpty then pure ([] : List Int)
        else if env.treatySearch.length ≠ treaty_names.length then
          throw (.apiError ("Expected " ++ toString treaty_names.length ++ " treaties, found " ++
            toString env.treatySearch.length))
        else pure (env.treatySearch.map (fun t => t.treatyId))
      if env.modelProfileResp.count = 0 then
        throw (.referenceDataError ("Analysis profile \x27" ++ analysis_profile_name ++
          "\x27 not found"))
      if env.outputProfileResp.length = 0 then
        throw (.referenceDataError ("Output profile \x27" ++ output_profile_name ++
          "\x27 not found"))
      match env.modelProfileResp.items with
      | [] =>
        throw (.referenceDataError ("Failed to extract model profile ID for \x27" ++
          analysis_profile_name ++ "\x27"))
      | mp :: _ =>
        let job_type := if containsSubstr mp.softwareVersionCode "HD" then "HD" else "DLM"
        match env.outputProfileResp with
        | [] =>
          throw (.referenceDataError ("Failed to extract output profile ID for \x27" ++
            output_profile_name ++ "\x27"))
        | op :: _ =>
          let event_rate_scheme_id ← (do
            match event_rate_scheme_name with
            | some name =>
              if env.eventRateSchemeResp.count = 0 then
                throw (.referenceDataError ("Event rate scheme \x27" ++ name ++ "\x27 not found"))
              else
                match env.eventRateSchemeResp.items with
                | [] =>
                  throw (.referenceDataError ("Failed to extract event rate scheme ID for \x27" ++
                    name ++ "\x27"))
                | e :: _ => pure (some e.eventRateSchemeId)
            | none =>
              if job_type = "DLM" then
                throw (IRPError.referenceDataError "Event rate scheme is required for DLM analyses")
              else pure none : Except IRPError (Option Int))
          let currency := currency.getD env.defaultCurrency
          let settings : AnalysisSettings :=
            { name := job_name
              modelProfileId := mp.id
              outputProfileId := op.id
              treatyIds := treaty_ids
              tagIds := env.tagIds
              currency := currency
              franchiseDeductible := franchise_deductible
              minLossThreshold := min_loss_threshold
              treatConstructionOccupancyAsUnknown := treat_construction_occupancy_as_unknown
              numMaxLossEvent := num_max_loss_event
              eventRateSchemeId := event_rate_scheme_id }
          let data : AnalysisJobRequest :=
            { resourceUri := pf.uri
              resourceType := "portfolio"
              type := job_type
              settings := settings }
          .ok (env.submittedJobId, data)
    | _ =>
      throw (.apiError ("Expected 1 portfolio with name " ++ portfolio_name ++ ", found " ++
        toString env.portfolioSearch.length))
  | _ =>
    throw (.apiError ("Expected 1 EDM with name " ++ edm_name ++ ", found " ++
      toString env.edmSearch.length))

/-! ## Region/peril simulation-set merge (`analysis.py`:
`build_region_peril_simulation_set`, final merge loop)

The merge step operates on the list of per-region entries already built: it
folds them into an insertion-ordered map keyed by every field except
`engineVersion`, unioning the engine-version tokens of entries that collide and
re-joining them comma-separated in descending lexical order. -/

structure RegionPerilEntry where
  engineVersion : String
  eventRateSchemeId : Int
  modelRegionCode : String
  modelVersion : String
  perilCode : String
  regionCode : String
  simulationPeriods : Int
  simulationSetId : Int
deriving DecidableEq, Repr

/-- The dict key used by the merge: every field except `engineVersion`. -/
def mergeKey (e : RegionPerilEntry) :
    Int × String × String × String × String × Int × Int :=
  (e.eventRateSchemeId, e.modelRegionCode, e.modelVersion, e.perilCode, e.regionCode,
   e.simulationPeriods, e.simulationSetId)

/-- Source: `set(existing.split(",")); set.add(new)`: the deduplicated token set of the
engine versions of the stored entry, with the incoming version added. -/
def unionVersions (existing new : String) : List String :=
  let tokens := (splitComma existing).eraseDups
  if new ∈ tokens then tokens else tokens ++ [new]

/-- Update the stored entry for a colliding merge key. -/
def mergeInto (stored : RegionPerilEntry) (incoming : RegionPerilEntry) : RegionPerilEntry :=
  { stored with
    engineVersion := joinComma (sortDesc (unionVersions stored.engineVersion incoming.engineVersion)) }

/-- One step of the merge fold over the insertion-ordered association list. -/
def mergeStep (acc : List ((Int × String × String × String × String × Int × Int) × RegionPerilEntry))
    (e : RegionPerilEntry) :
    List ((Int × String × String × String × String × Int × Int) × RegionPerilEntry) :=
  let k := mergeKey e
  if (acc.lookup k).isSome then
    acc.map (fun kv => if kv.1 = k then (kv.1, mergeInto kv.2 e) else kv)
  else
    acc ++ [(k, e)]

/-- The final merge loop of `build_region_peril_simulation_set`
(`merged_result` insertion-ordered dict; returns `list(merged_result.values())`). -/
def mergeEntries (entries : List RegionPerilEntry) : List RegionPerilEntry :=
  (entries.foldl mergeStep []).map (fun kv => kv.2)

/-! ## Analysis-group submission (`analysis.py`: `submit_analysis_grouping_job`)

Search responses come from a `GroupingEnv`; the function also returns the list
of bodies POSTed to the group-creation endpoint `CREATE_ANALYSIS_GROUP`, so
"no network call is made to the group-creation endpoint" is expressible. -/

structure GroupAnalysisRec where
  uri : String
  analysisId : Int
deriving DecidableEq, Repr

structure GroupingEnv where
  /-- response of `search_analyses(filter=analysisName = "<name>")` -/
  searchByName : String → List GroupAnalysisRec
  /-- response of `search_analyses(filter=analysisName = "<n>" AND exposureName = "<e>")` -/
  searchByNameAndEdm : String → String → List GroupAnalysisRec
  /-- result of `get_analysis_currency()` -/
  defaultCurrency : String
  /-- result of `build_region_peril_simulation_set(analysis_ids)` -/
  buildRegionPerilSimulationSet : List Int → List RegionPerilEntry
  /-- job id extracted from the Location header of the submission response -/
  submittedJobId : Int

structure GroupSettings where
  analysisName : String
  currency : String
  simulateToPLT : Bool
  propagateDetailedLosses : Bool
  numOfSimulations : Int
  reportingWindowStart : String
  simulationWindowStart : String
  simulationWindowEnd : String
  regionPerilSimulationSet : List RegionPerilEntry
  description : String
deriving DecidableEq, Repr

structure GroupRequest where
  resourceType : String
  resourceUris : List String
  settings : GroupSettings
deriving DecidableEq, Repr

structure GroupingResult where
  job_id : Option Int
  skipped : Bool
  skipped_items : List String
  included_items : List String
  skip_reason : Option String
  http_request_body : Option GroupRequest
deriving DecidableEq, Repr

/-- The search used to resolve one member name: group names are searched by
name only; analysis names by name+EDM when a (truthy) mapping entry exists,
else by name only. -/
def resolveSearch (env : GroupingEnv) (analysis_edm_map : List (String × String))
    (group_names : List String) (name : String) : List GroupAnalysisRec :=
  if name ∈ group_names then env.searchByName name
  else
    match analysis_edm_map.lookup name with
    | some edm => if edm = "" then env.searchByName name else env.searchByNameAndEdm name edm
    | none => env.searchByName name

/-- The member-resolution loop of `submit_analysis_grouping_job`: returns
`(uris, ids, skipped_items, included_items)`. -/
def resolveMembers (env : GroupingEnv) (analysis_edm_map : List (String × String))
    (group_names : List String) (skip_missing : Bool) :
    List String → Except IRPError (List String × List Int × List String × List String)
  | [] => .ok ([], [], [], [])
  | name :: rest => do
    match resolveSearch env analysis_edm_map group_names name with
    | [] =>
      if skip_missing then do
        let (us, ids, sk, inc) ← resolveMembers env analysis_edm_map group_names skip_missing rest
        .ok (us, ids, name :: sk, inc)
      else if name ∈ group_names then
        throw (.apiError ("Group with this name does not exist: " ++ name))
      else
        throw (.apiError ("Analysis with this name does not exist: " ++ name))
    | [r] => do
      let (us, ids, sk, inc) ← resolveMembers env analysis_edm_map group_names skip_missing rest
      .ok (r.uri :: us, r.analysisId :: ids, sk, name :: inc)
    | _ =>
      if name ∈ group_names then
        throw (.apiError ("Duplicate groups exist with name: " ++ name))
      else
        throw (.apiError ("Duplicate analyses exist with name: " ++ name))

/-- Source: `AnalysisManager.submit_analysis_grouping_job`.  Returns the grouping
result together with the bodies POSTed to the group-creation endpoint. -/
def submit_analysis_grouping_job (env : GroupingEnv)
    (group_name : String) (analysis_names : List String)
    (simulate_to_plt : Bool) (num_simulations : Int) (propagate_detailed_losses : Bool)
    (reporting_window_start simulation_window_start simulation_window_end : String)
    (region_peril_simulation_set : Option (List RegionPerilEntry))
    (description : String) (currency : Option String)
    (analysis_edm_map : List (String × String)) (group_names : List String)
    (skip_missing : Bool) :
    Except IRPError (GroupingResult × List GroupRequest) := do
  validate_non_empty_string group_name "group_name"
  validate_list_not_empty analysis_names "analysis_names"
  if (env.searchByName group_name).length > 0 then
    throw (.apiError ("Analysis Group with this name already exists: " ++ group_name))
  let (uris, ids, skipped_items, included_items) ←
    resolveMembers env analysis_edm_map group_names skip_missing analysis_names
  if uris.isEmpty then
    .ok ({ job_id := none
           skipped := true
           skipped_items := skipped_items
           included_items := []
           skip_reason := some ("All " ++ toString skipped_items.length ++
             " analyses/groups were not found")
           http_request_body := none }, [])
  else
    let currency := currency.getD env.defaultCurrency
    let rps := match region_peril_simulation_set with
      | some r => r
      | none => env.buildRegionPerilSimulationSet ids
    let simulate_to_plt := if rps.length > 0 then true else simulate_to_plt
    let data : GroupRequest :=
      { resourceType := "analyses"
        resourceUris := uris
        settings :=
          { analysisName := group_name
            currency := currency
            simulateToPLT := simulate_to_plt
            propagateDetailedLosses := propagate_detailed_losses
            numOfSimulations := num_simulations
            reportingWindowStart := reporting_window_start
            simulationWindowStart := simulation_window_start
            simulationWindowEnd := simulation_window_end
            regionPerilSimulationSet := rps
            description := description } }
    .ok ({ job_id := some env.submittedJobId
           skipped := false
           skipped_items := skipped_items
           included_items := included_items
           skip_reason := none
           http_request_body := some data }, [data])

/-! ## S3 upload-URL parsing (`s3.py`: `_parse_s3_url`)

`urllib.parse.urlparse` is modelled for the URL shapes the manager receives:
the netloc is the segment between `"://"` and the next `/`, and the path is the
remainder with any query/fragment stripped. -/

/-- Strip a query string or fragment (everything from the first `?` or `#`). -/
def stripQueryFragment (cs : List Char) : List Char :=
  cs.takeWhile (fun c => c ≠ '?' && c ≠ '#')

/-- Model of `urlparse(url)` reduced to `(netloc, path)`. -/
def urlparseHostPath (url : String) : String × String :=
  match splitFirst "://" url with
  | some (_scheme, rest) =>
    let cs := rest.toList
    (String.mk (cs.takeWhile (fun c => c ≠ '/')),
     String.mk (stripQueryFragment (cs.dropWhile (fun c => c ≠ '/'))))
  | none => ("", String.mk (stripQueryFragment url.toList))

/-- Source: `S3Manager._parse_s3_url`: parse bucket and key from an S3 upload URL,
supporting virtual-hosted-style and path-style hosts. -/
def _parse_s3_url (upload_url : String) : Except IRPError (String × String) :=
  let (host, path0) := urlparseHostPath upload_url
  let path := String.mk (path0.toList.dropWhile (fun c => c = '/'))
  let inner : Except String (String × String) :=
    if containsSubstr host ".s3." || containsSubstr host ".s3-" then
      let bucket := match splitFirst ".s3" host with
        | some (pre, _) => pre
        | none => host
      .ok (bucket, path)
    else if pyStartsWith host "s3." || pyStartsWith host "s3-" then
      match splitFirst "/" path with
      | some (bucket, key) => .ok (bucket, key)
      | none => .ok (path, "")
    else .error ("Unrecognized S3 URL format: " ++ upload_url)
  match inner with
  | .ok (bucket, key) =>
    if bucket = "" || key = "" then
      .error (.validationError ("Failed to parse S3 URL \x27" ++ upload_url ++
        "\x27: Could not extract bucket/key from URL: " ++ upload_url))
    else .ok (bucket, key)
  | .error m =>
    .error (.validationError ("Failed to parse S3 URL \x27" ++ upload_url ++ "\x27: " ++ m))

/-! ## SQL parameter substitution (`irp_integration/databridge.py`:
`_escape_sql_value`, `_substitute_named_parameters`, `ExpressionTemplate`)

Parameter values are the native scalars that survive
`_convert_params_to_native_types` (absent, boolean, integer, string; no
floating point value appears in any claim).  The context-classification
regexes and the `ExpressionTemplate` pattern are implemented as structural
scanners over the raw query text. -/

inductive PyValue where
  | vNone
  | vBool (b : Bool)
  | vInt (n : Int)
  | vStr (s : String)
deriving DecidableEq, Repr

/-- Python string replace doubling each embedded single-quote character. -/
def doubleApos (s : String) : String :=
  String.mk (s.toList.flatMap (fun c => if c = '\x27' then ['\x27', '\x27'] else [c]))

/-- Source: `DataBridgeManager._escape_sql_value`. -/
def _escape_sql_value : PyValue → String
  | .vNone => "NULL"
  | .vBool b => if b then "1" else "0"
  | .vInt n => toString n
  | .vStr s => "\x27" ++ doubleApos s ++ "\x27"

/-- Python `str(value)` on the embedded scalars. -/
def pyStr : PyValue → String
  | .vNone => "None"
  | .vBool b => if b then "True" else "False"
  | .vInt n => toString n
  | .vStr s => s

/-- Python `re` `\s` (ASCII whitespace). -/
def isPySpace (c : Char) : Bool :=
  c = ' ' || c = '\t' || c = '\n' || c = '\r' || c = '\x0b' || c = '\x0c'

/-- Python `re` `\w` (ASCII word character). -/
def isWordChar (c : Char) : Bool := c.isAlphanum || c = '_'

/-- The character set allowed by the identifier-context check:
`c.isalnum() or c in ('_', '-', ' ', '/')`. -/
def identifierCharOk (c : Char) : Bool :=
  c.isAlphanum || c = '_' || c = '-' || c = ' ' || c = '/'

/-- Match `\{\{\s*key\s*\}\}` at the head of `cs`; on success return the
suffix after the closing braces. -/
def matchPlaceholder (key : List Char) (cs : List Char) : Option (List Char) :=
  match cs with
  | '\x7b' :: '\x7b' :: rest =>
    let rest := rest.dropWhile isPySpace
    if listStartsWith key rest then
      let rest := (rest.drop key.length).dropWhile isPySpace
      match rest with
      | '\x7d' :: '\x7d' :: tail => some tail
      | _ => none
    else none
  | _ => none

/-- All occurrences of the placeholder for `key` in the query, each as the pair
(characters before the occurrence, reversed; characters after it). -/
def phOccs (key : List Char) : List Char → List Char → List (List Char × List Char)
  | _revPre, [] => []
  | revPre, c :: t =>
    (match matchPlaceholder key (c :: t) with
      | some tail => [(revPre, tail)]
      | none => []) ++ phOccs key (c :: revPre) t

/-- Identifier pattern 1: `\[\s*\{\{\s*key\s*\}\}\s*\]`. -/
def inBrackets (revPre tail : List Char) : Bool :=
  ((revPre.dropWhile isPySpace).head? = some '[') &&
  ((tail.dropWhile isPySpace).head? = some ']')

/-- Identifier pattern 2: the placeholder inside a single-quoted, single-line string literal. -/
def inStringLiteral (revPre tail : List Char) : Bool :=
  let run := fun c => c ≠ '\x27' && c ≠ '\n' && c ≠ '\r'
  ((revPre.dropWhile run).head? = some '\x27') &&
  ((tail.dropWhile run).head? = some '\x27')

/-- Identifier pattern 3: `\w+_\{\{\s*key\s*\}\}`. -/
def underscoreBefore (revPre : List Char) : Bool :=
  match revPre with
  | '_' :: d :: _ => isWordChar d
  | _ => false

/-- Identifier pattern 4: `\{\{\s*key\s*\}\}_\w+`. -/
def underscoreAfter (tail : List Char) : Bool :=
  match tail with
  | '_' :: d :: _ => isWordChar d
  | _ => false

/-- Source: `is_identifier` in `_substitute_named_parameters`: does any occurrence of
the placeholder of the parameter in the query match one of the four
identifier-context patterns? -/
def isIdentifierContext (key query : String) : Bool :=
  (phOccs key.toList [] query.toList).any (fun pr =>
    inBrackets pr.1 pr.2 || inStringLiteral pr.1 pr.2 ||
    underscoreBefore pr.1 || underscoreAfter pr.2)

inductive TemplateError where
  | missingKey (name : String)
  | invalidPlaceholder
deriving DecidableEq, Repr

/-- Parse `[_a-zA-Z][_a-zA-Z0-9]*` at the head of `cs`. -/
def parseIdentifier (cs : List Char) : Option (String × List Char) :=
  match cs with
  | [] => none
  | c :: t =>
    if c.isAlpha || c = '_' then
      some (String.mk (c :: t.takeWhile isWordChar), t.dropWhile isWordChar)
    else none

/-- Source: `ExpressionTemplate.substitute`: scan the query, replacing each
`\{\{\s*name\s*\}\}` with the mapped value; an unknown name raises `KeyError`
and a malformed placeholder raises `ValueError`.  `fuel` bounds the recursion;
`query.length + 1` always suffices. -/
def templateSubFuel (m : List (String × String)) :
    Nat → List Char → Except TemplateError (List Char)
  | 0, _ => .ok []
  | _ + 1, [] => .ok []
  | fuel + 1, c :: t =>
    match c, t with
    | '\x7b', '\x7b' :: rest =>
      let rest1 := rest.dropWhile isPySpace
      match rest1 with
      | '\x7b' :: '\x7b' :: tail =>
        (templateSubFuel m fuel tail).map (fun out => '\x7b' :: '\x7b' :: out)
      | _ =>
        match parseIdentifier rest1 with
        | some (name, rest2) =>
          match rest2.dropWhile isPySpace with
          | '\x7d' :: '\x7d' :: tail =>
            match m.lookup name with
            | some v => (templateSubFuel m fuel tail).map (fun out => v.toList ++ out)
            | none => .error (.missingKey name)
          | _ => .error .invalidPlaceholder
        | none => .error .invalidPlaceholder
    | _, _ => (templateSubFuel m fuel t).map (fun out => c :: out)

/-- Source: `ExpressionTemplate(query).substitute(mapping)`. -/
def templateSubstitute (query : String) (m : List (String × String)) :
    Except TemplateError String :=
  (templateSubFuel m (query.toList.length + 1) query.toList).map String.mk

/-- The per-parameter escaping loop of `_substitute_named_parameters`: classify
each parameter by context over the whole query, check and keep identifiers raw,
escape values.  The identifier-charset failure is a raw `ValueError`. -/
def escapeParams (query : String) :
    List (String × PyValue) → Except IRPError (List (String × String))
  | [] => .ok []
  | (key, v) :: rest => do
    let esc ←
      if isIdentifierContext key query then
        match v with
        | .vStr s =>
          if s.toList.all identifierCharOk then pure (pyStr v)
          else throw (IRPError.valueError ("Invalid identifier value for parameter \x27" ++ key ++
            "\x27: " ++ s ++ ". Identifiers can only contain alphanumeric characters, " ++
            "underscores, hyphens, and spaces."))
        | _ => pure (pyStr v)
      else pure (_escape_sql_value v)
    let tail ← escapeParams query rest
    .ok ((key, esc) :: tail)

/-- Source: `DataBridgeManager._substitute_named_parameters`. -/
def _substitute_named_parameters (query : String) (params : List (String × PyValue)) :
    Except IRPError String :=
  if params.isEmpty then .ok query
  else do
    let escaped ← escapeParams query params
    match templateSubstitute query escaped with
    | .ok s => .ok s
    | .error (.missingKey name) =>
      .error (.dataBridgeQueryError ("Missing required parameter: \x27" ++ name ++
        "\x27. Query requires parameter that was not provided."))
    | .error .invalidPlaceholder =>
      .error (.dataBridgeQueryError "Parameter substitution error: Invalid placeholder in string")

/-! # Theorems -/

/-! ## General helper lemmas -/

theorem exceptOkBind {ε α β : Type} (a : α) (f : α → Except ε β) :
    (Except.ok a >>= f : Except ε β) = f a := rfl

theorem exceptErrBind {ε α β : Type} (e : ε) (f : α → Except ε β) :
    (Except.error e >>= f : Except ε β) = Except.error e := rfl

theorem exceptThrowBind {ε α β : Type} (e : ε) (f : α → Except ε β) :
    ((throw e : Except ε α) >>= f) = Except.error e := rfl

/-! ## C5: perspective-code validation in result retrieval -/

/-- C5 (amended): each of `get_elt`, `get_ep`, `get_stats`, `get_plt` raises a
validation error when the supplied perspective code is not one of `"GR"`,
`"GU"`, `"RL"`, and for a valid code issues a request whose query parameters
include the perspective code, `exposureResourceType="PORTFOLIO"` and the given
`exposureResourceId`; `get_regions` takes no perspective code and issues a
request with no query parameters at all. -/
theorem C5_perspective_code_validation
    (analysis_id exposure_resource_id : Int) (code : String)
    (filter : Option String) (limit offset : Option Int)
    (hid : 0 < analysis_id) :
    (code ∉ PERSPECTIVE_CODES →
      get_elt analysis_id code exposure_resource_id filter limit offset =
        .error (.validationError
          ("Invalid perspective_code \x27" ++ code ++ "\x27. Must be one of: GR, GU, RL")) ∧
      get_ep analysis_id code exposure_resource_id =
        .error (.validationError
          ("Invalid perspective_code \x27" ++ code ++ "\x27. Must be one of: GR, GU, RL")) ∧
      get_stats analysis_id code exposure_resource_id =
        .error (.validationError
          ("Invalid perspective_code \x27" ++ code ++ "\x27. Must be one of: GR, GU, RL")) ∧
      get_plt analysis_id code exposure_resource_id filter limit offset =
        .error (.validationError
          ("Invalid perspective_code \x27" ++ code ++ "\x27. Must be one of: GR, GU, RL"))) ∧
    (code ∈ PERSPECTIVE_CODES →
      (∃ r, get_elt analysis_id code exposure_resource_id filter limit offset = .ok r ∧
        ("perspectiveCode", ParamValue.s code) ∈ r.params ∧
        ("exposureResourceType", ParamValue.s "PORTFOLIO") ∈ r.params ∧
        ("exposureResourceId", ParamValue.i exposure_resource_id) ∈ r.params) ∧
      (∃ r, get_ep analysis_id code exposure_resource_id = .ok r ∧
        ("perspectiveCode", ParamValue.s code) ∈ r.params ∧
        ("exposureResourceType", ParamValue.s "PORTFOLIO") ∈ r.params ∧
        ("exposureResourceId", ParamValue.i exposure_resource_id) ∈ r.params) ∧
      (∃ r, get_stats analysis_id code exposure_resource_id = .ok r ∧
        ("perspectiveCode", ParamValue.s code) ∈ r.params ∧
        ("exposureResourceType", ParamValue.s "PORTFOLIO") ∈ r.params ∧
        ("exposureResourceId", ParamValue.i exposure_resource_id) ∈ r.params) ∧
      (∃ r, get_plt analysis_id code exposure_resource_id filter limit offset = .ok r ∧
        ("perspectiveCode", ParamValue.s code) ∈ r.params ∧
        ("exposureResourceType", ParamValue.s "PORTFOLIO") ∈ r.params ∧
        ("exposureResourceId", ParamValue.i exposure_resource_id) ∈ r.params)) ∧
    get_regions analysis_id =
      .ok (HttpRequest.mk ("/platform/riskdata/v1/analyses/" ++ toString analysis_id ++ "/regions") []) := by
  refine ⟨fun hc => ⟨?_, ?_, ?_, ?_⟩, fun hc => ⟨?_, ?_, ?_, ?_⟩, ?_⟩ <;>
    first
    | (cases filter <;> cases limit <;> cases offset <;>
        simp [get_elt, get_ep, get_stats, get_plt, validate_positive_int,
          _validate_perspective_code, hc, show ¬ analysis_id ≤ 0 by omega,
          exceptOkBind, exceptErrBind])
    | simp [get_regions, GET_ANALYSIS_REGIONS, validate_positive_int,
        show ¬ analysis_id ≤ 0 by omega, exceptOkBind]

/-- C5 witness: instances of `C5_perspective_code_validation` at the concrete
perspective codes `"XX"` (rejected) and `"GR"` (accepted), analysis id 1,
exposure resource id 2. -/
theorem C5_perspective_code_validation_witness :
    (get_elt 1 "XX" 2 none none none =
      .error (.validationError "Invalid perspective_code \x27XX\x27. Must be one of: GR, GU, RL")) ∧
    (∃ r, get_ep 1 "GR" 2 = .ok r ∧ ("perspectiveCode", ParamValue.s "GR") ∈ r.params ∧
      ("exposureResourceType", ParamValue.s "PORTFOLIO") ∈ r.params ∧
      ("exposureResourceId", ParamValue.i 2) ∈ r.params) :=
  ⟨((C5_perspective_code_validation 1 2 "XX" none none none (by decide)).1 (by decide)).1,
   ((C5_perspective_code_validation 1 2 "GR" none none none (by decide)).2.1 (by decide)).2.1⟩

/-- C5 counterexample: contrary to the claim, `get_regions` accepts no
perspective code and the request it issues for analysis id 1 carries no query
parameters whatsoever — in particular none of `perspectiveCode`,
`exposureResourceType`, `exposureResourceId`. -/
theorem C5_get_regions_counterexample :
    get_regions 1 = .ok (HttpRequest.mk "/platform/riskdata/v1/analyses/1/regions" []) ∧
    ¬ (∃ r, get_regions 1 = Except.ok r ∧
        ("exposureResourceType", ParamValue.s "PORTFOLIO") ∈ r.params) := by
  refine ⟨by decide, ?_⟩
  rintro ⟨r, hr, hm⟩
  rw [show get_regions 1 =
    Except.ok (HttpRequest.mk "/platform/riskdata/v1/analyses/1/regions" []) from by decide] at hr
  injection hr with h
  subst h
  simp at hm

/-! ## C8: 20-character truncation of portfolio and treaty numbers -/

theorem pySlice_of_le (s : String) (h : s.toList.length ≤ 20) : pySlice 20 s = s := by
  cases s with
  | mk data =>
    have h' : data.length ≤ 20 := h
    simp [pySlice, String.toList, List.take_of_length_le h']

/-- C8 (amended): for every nonempty supplied number, the `portfolioNumber` /
`treatyNumber` field of the creation request body is exactly the first 20
characters of the supplied number, and the whole string unchanged when its
length is at most 20.  (A treaty number is validated nonempty; an empty
portfolio number is first replaced by the portfolio name — see the
counterexample.) -/
theorem C8_number_truncation
    (env : PortfolioEnv) (tenv : TreatyEnv) (e e' : EdmSearchRec) (c : CedantRec)
    (cu : CurrencyRec)
    (edm pname num desc tname tnum ttype idate xdate cname basis level : String)
    (prl ol ap pc pp ps pr prem prc al ad : Rat) (nr pri : Int)
    (ttc abc alc : String)
    (hp1 : env.edmSearch = [e]) (hp2 : env.portfolioSearch = [])
    (h1 : tenv.edmSearch = [e']) (h2 : tenv.cedants = [c]) (h3 : tenv.currency = some cu)
    (ht : TREATY_TYPES.lookup ttype = some ttc)
    (hb : TREATY_ATTACHMENT_BASES.lookup basis = some abc)
    (hl : TREATY_ATTACHMENT_LEVELS.lookup level = some alc)
    (hedm : edm ≠ "") (hp : pname ≠ "") (hn : num ≠ "")
    (htn : tname ≠ "") (hnum : tnum ≠ "") (hty : ttype ≠ "")
    (hi : idate ≠ "") (hx : xdate ≠ "") (hc : cname ≠ "") (hba : basis ≠ "") (hle : level ≠ "")
    (q1 : 0 ≤ prl) (q2 : 0 ≤ ol) (q3 : 0 ≤ ap) (q4 : 0 ≤ pc) (q5 : 0 ≤ pp) (q6 : 0 ≤ ps)
    (q7 : 0 ≤ pr) (q8 : 0 ≤ prem) (q9 : 0 ≤ nr) (q10 : 0 ≤ prc) (q11 : 0 ≤ al) (q12 : 0 ≤ ad) :
    (∃ pid body, create_portfolio env edm pname num desc = .ok (pid, body) ∧
      body.portfolioNumber = pySlice 20 num ∧
      (num.toList.length ≤ 20 → body.portfolioNumber = num)) ∧
    (∃ tid body, create_treaty tenv edm tname tnum ttype prl ol ap idate xdate cname basis level
        pc pp ps pr prem nr prc al ad pri = .ok (tid, body) ∧
      body.treatyNumber = pySlice 20 tnum ∧
      (tnum.toList.length ≤ 20 → body.treatyNumber = tnum)) := by
  constructor
  · simp [create_portfolio, validate_non_empty_string, hedm, hp, hn, hp1, hp2, exceptOkBind]
    exact ⟨_, _, ⟨rfl, rfl⟩, rfl, fun h => pySlice_of_le num h⟩
  · simp only [create_treaty, validate_non_empty_string, validate_non_negative_float,
      validate_non_negative_int, if_neg hedm, if_neg htn, if_neg hnum, if_neg hty,
      if_neg hi, if_neg hx, if_neg hc, if_neg hba, if_neg hle,
      if_neg (not_lt.mpr q1), if_neg (not_lt.mpr q2), if_neg (not_lt.mpr q3),
      if_neg (not_lt.mpr q4), if_neg (not_lt.mpr q5), if_neg (not_lt.mpr q6),
      if_neg (not_lt.mpr q7), if_neg (not_lt.mpr q8), if_neg (not_lt.mpr q9),
      if_neg (not_lt.mpr q10), if_neg (not_lt.mpr q11), if_neg (not_lt.mpr q12),
      ht, hb, hl, h1, h2, h3, exceptOkBind]
    exact ⟨_, _, rfl, rfl, fun h => pySlice_of_le tnum h⟩

/-- C8 witness: instance of `C8_number_truncation` with a 26-character number
(truncated to its first 20 characters) for the portfolio and an exactly
6-character number (unchanged) for the treaty. -/
theorem C8_number_truncation_witness :
    (∃ pid body, create_portfolio (PortfolioEnv.mk [EdmSearchRec.mk 3 "EDM1"] [] "ts" 11)
        "EDM1" "P1" "abcdefghijklmnopqrstuvwxyz" "d" = .ok (pid, body) ∧
      body.portfolioNumber = pySlice 20 "abcdefghijklmnopqrstuvwxyz" ∧
      ("abcdefghijklmnopqrstuvwxyz".toList.length ≤ 20 →
        body.portfolioNumber = "abcdefghijklmnopqrstuvwxyz")) ∧
    (∃ tid body, create_treaty
        (TreatyEnv.mk [EdmSearchRec.mk 3 "EDM1"] [CedantRec.mk 1 "C"] (some (CurrencyRec.mk 1 "USD" "US Dollar")) 21)
        "EDM1" "T1" "TN-001" "Catastrophe" 0 0 0 "2021-01-01" "2021-12-31" "US Dollar"
        "Losses Occurring" "Portfolio" 0 0 0 0 0 0 0 0 0 1 = .ok (tid, body) ∧
      body.treatyNumber = pySlice 20 "TN-001" ∧
      ("TN-001".toList.length ≤ 20 → body.treatyNumber = "TN-001")) :=
  C8_number_truncation (PortfolioEnv.mk [EdmSearchRec.mk 3 "EDM1"] [] "ts" 11)
    (TreatyEnv.mk [EdmSearchRec.mk 3 "EDM1"] [CedantRec.mk 1 "C"]
      (some (CurrencyRec.mk 1 "USD" "US Dollar")) 21)
    (EdmSearchRec.mk 3 "EDM1") (EdmSearchRec.mk 3 "EDM1") (CedantRec.mk 1 "C")
    (CurrencyRec.mk 1 "USD" "US Dollar")
    "EDM1" "P1" "abcdefghijklmnopqrstuvwxyz" "d" "T1" "TN-001" "Catastrophe"
    "2021-01-01" "2021-12-31" "US Dollar" "Losses Occurring" "Portfolio"
    0 0 0 0 0 0 0 0 0 0 0 0 1
    "CATA" "L" "PORT"
    rfl rfl rfl rfl rfl (by decide) (by decide) (by decide)
    (by decide) (by decide) (by decide) (by decide) (by decide) (by decide)
    (by decide) (by decide) (by decide) (by decide) (by decide)
    (by norm_num) (by norm_num) (by norm_num) (by norm_num) (by norm_num) (by norm_num)
    (by norm_num) (by norm_num) (by norm_num) (by norm_num) (by norm_num) (by norm_num)

/-- C8 counterexample: with an empty supplied portfolio number (a string of
length 0 ≤ 20), `create_portfolio` does not keep it unchanged — the request
field `portfolioNumber` of the body is the portfolio name `"MyPortfolio"`, not the first
20 characters of `""`. -/
theorem C8_empty_number_counterexample :
    create_portfolio (PortfolioEnv.mk [EdmSearchRec.mk 3 "EDM1"] [] "ts" 11)
        "EDM1" "MyPortfolio" "" "d" =
      .ok (11, PortfolioBody.mk "MyPortfolio" "MyPortfolio" "d") ∧
    pySlice 20 "" = "" ∧ ("MyPortfolio" : String) ≠ "" := by
  exact ⟨by decide, by decide, by decide⟩

/-! ## C4: EDM-name uniqueness before creation -/

/-- C4 (amended): the batch path `submit_create_edm_jobs` checks via an EDM
search that no EDM with any proposed name already exists, and raises an error
naming the offending EDM name(s) before any creation job is submitted (its
request log is exactly the one search, with no creation request); the single
path `submit_create_edm_job` performs no EDM-name search at all. -/
theorem C4_edm_uniqueness_check
    (env : EdmEnv) (lst : List CreateEdmData) (name server : String)
    (hne : lst ≠ [])
    (hdup : env.edms.filter (fun e => e.exposureName ∈ lst.map (fun d => d.edm_name)) ≠ []) :
    (submit_create_edm_jobs env lst =
      ([.searchEdms (lst.map (fun d => d.edm_name))],
       .error (.apiError ("The following EDMs already exist: " ++
         joinQuoted ((env.edms.filter
           (fun e => e.exposureName ∈ lst.map (fun d => d.edm_name))).map
             (fun e => e.exposureName)) ++ "; please use unique names")))) ∧
    (∀ r ∈ (submit_create_edm_job env name server).1, ∀ ns, r ≠ EdmRequest.searchEdms ns) := by
  constructor
  · have hni : lst.isEmpty = false := by simpa [List.isEmpty_iff] using hne
    have hc : 0 <
        (env.edms.filter (fun e => e.exposureName ∈ lst.map (fun d => d.edm_name))).length :=
      List.length_pos.mpr hdup
    simp only [submit_create_edm_jobs, validate_list_not_empty, validate_unique_edms, hni,
      Bool.false_eq_true, if_false]
    rw [if_pos hc]
  · intro r hr ns
    simp only [submit_create_edm_job] at hr
    split at hr
    · simp at hr
    · split at hr
      · split at hr <;> simp at hr <;> rcases hr with rfl | rfl | rfl | rfl <;> simp
      · simp at hr
        subst hr
        simp

/-- C4 witness: instance of `C4_edm_uniqueness_check` where the proposed name
`"EDM_A"` already exists remotely — the batch call issues only the EDM search
and fails naming `"EDM_A"`, and the request log of the single path never contains an
EDM search. -/
theorem C4_edm_uniqueness_check_witness :
    (submit_create_edm_jobs
        (EdmEnv.mk [EdmSearchRec.mk 3 "EDM_A"] [ServerRec.mk 1 "databridge-1"]
          [ExposureSetRec.mk 5 "EDM_A"] 8 9)
        [CreateEdmData.mk "databridge-1" "EDM_A"] =
      ([.searchEdms ["EDM_A"]],
       .error (.apiError ("The following EDMs already exist: " ++
         joinQuoted ["EDM_A"] ++ "; please use unique names")))) ∧
    (∀ r ∈ (submit_create_edm_job
        (EdmEnv.mk [EdmSearchRec.mk 3 "EDM_A"] [ServerRec.mk 1 "databridge-1"]
          [ExposureSetRec.mk 5 "EDM_A"] 8 9) "EDM_B" "databridge-1").1,
      ∀ ns, r ≠ EdmRequest.searchEdms ns) := by
  have h := C4_edm_uniqueness_check
    (EdmEnv.mk [EdmSearchRec.mk 3 "EDM_A"] [ServerRec.mk 1 "databridge-1"]
      [ExposureSetRec.mk 5 "EDM_A"] 8 9)
    [CreateEdmData.mk "databridge-1" "EDM_A"] "EDM_B" "databridge-1"
    (by decide) (by decide)
  exact ⟨h.1.trans (by decide), h.2⟩

/-- C4 counterexample: the single path `submit_create_edm_job` submits the
creation job for `"EDM_A"` even though an EDM named `"EDM_A"` already exists in
the environment: its request log holds only the server search, the exposure-set
search and the creation request — no EDM search — and the call succeeds instead
of raising. -/
theorem C4_single_path_counterexample :
    submit_create_edm_job
        (EdmEnv.mk [EdmSearchRec.mk 3 "EDM_A"] [ServerRec.mk 1 "databridge-1"]
          [ExposureSetRec.mk 5 "EDM_A"] 8 9) "EDM_A" "databridge-1" =
      ([.searchDatabaseServers "databridge-1", .searchExposureSets "EDM_A",
        .createEdm 5 (CreateEdmBody.mk "EDM_A" 1)],
       .ok (9, CreateEdmBody.mk "EDM_A" 1)) := by
  decide

/-! ## C9: polling terminal detection -/

theorem pollLoop_split (job_id timeout : Int) (b : PollStep) (post : List PollStep) :
    ∀ (pre : List PollStep),
    (∀ s ∈ pre, s.job.status ∉ WORKFLOW_COMPLETED_STATUSES ∧ s.elapsed ≤ timeout) →
    ∀ f s : Nat,
    (b.job.status ∈ WORKFLOW_COMPLETED_STATUSES →
      pollLoop job_id timeout f s (pre ++ b :: post) =
        .ok (some (b.job, f + pre.length + 1, s + pre.length))) ∧
    (b.job.status ∉ WORKFLOW_COMPLETED_STATUSES → b.elapsed > timeout →
      pollLoop job_id timeout f s (pre ++ b :: post) =
        .error (.jobError ("Analysis job ID " ++ toString job_id ++ " did not complete within " ++
          toString timeout ++ " seconds. Last status: " ++ b.job.status))) := by
  intro pre
  induction pre with
  | nil =>
    intro _ f s
    constructor
    · intro hb
      simp [pollLoop, hb]
    · intro hb hbe
      simp [pollLoop, hb, hbe, not_le.mpr hbe]
  | cons a t ih =>
    intro hpre f s
    have ha := hpre a (by simp)
    have ih' := ih (fun x hx => hpre x (by simp [hx])) (f + 1) (s + 1)
    constructor
    · intro hb
      simp only [List.cons_append, pollLoop]
      rw [if_neg (by simpa using ha.1), if_neg (not_lt.mpr ha.2), List.append_eq, ih'.1 hb]
      simp only [Except.ok.injEq, Option.some.injEq, Prod.mk.injEq, List.length_cons]
      exact ⟨trivial, by omega, by omega⟩
    · intro hb hbe
      simp only [List.cons_append, pollLoop]
      rw [if_neg (by simpa using ha.1), if_neg (not_lt.mpr ha.2), List.append_eq, ih'.2 hb hbe]

/-- C9: when every fetch before `b` is non-terminal and within the timeout,
`poll_analysis_job_to_completion` (1) returns the job body of `b` on the first
terminal fetch, having fetched `pre.length + 1` times and slept once after each
of the `pre.length` non-terminal fetches, and (2) if instead `b` is
non-terminal and its elapsed time exceeds the timeout, raises a job-timeout
error whose message ends with the last observed status. -/
theorem C9_poll_terminal_detection
    (job_id interval timeout : Int) (pre : List PollStep) (b : PollStep) (post : List PollStep)
    (hj : 0 < job_id) (hi : 0 < interval) (ht : 0 < timeout)
    (hpre : ∀ s ∈ pre, s.job.status ∉ WORKFLOW_COMPLETED_STATUSES ∧ s.elapsed ≤ timeout) :
    (b.job.status ∈ WORKFLOW_COMPLETED_STATUSES →
      poll_analysis_job_to_completion job_id interval timeout (pre ++ b :: post) =
        .ok (some (b.job, pre.length + 1, pre.length))) ∧
    (b.job.status ∉ WORKFLOW_COMPLETED_STATUSES → b.elapsed > timeout →
      poll_analysis_job_to_completion job_id interval timeout (pre ++ b :: post) =
        .error (.jobError ("Analysis job ID " ++ toString job_id ++ " did not complete within " ++
          toString timeout ++ " seconds. Last status: " ++ b.job.status))) := by
  have h := pollLoop_split job_id timeout b post pre hpre 0 0
  constructor
  · intro hb
    have := h.1 hb
    simp only [Nat.zero_add] at this
    simp [poll_analysis_job_to_completion, validate_positive_int,
      show ¬ job_id ≤ 0 by omega, show ¬ interval ≤ 0 by omega, show ¬ timeout ≤ 0 by omega,
      exceptOkBind, this]
  · intro hb hbe
    simp [poll_analysis_job_to_completion, validate_positive_int,
      show ¬ job_id ≤ 0 by omega, show ¬ interval ≤ 0 by omega, show ¬ timeout ≤ 0 by omega,
      exceptOkBind, h.2 hb hbe]

/-- C9 witness: instances of `C9_poll_terminal_detection`: for the fetched
status sequence QUEUED, RUNNING, FINISHED (all within a 600000-second timeout)
polling job 7 returns the FINISHED body after the third fetch having slept
twice; and for QUEUED followed by a RUNNING fetch at elapsed time 600001 it
raises the job-timeout error naming RUNNING. -/
theorem C9_poll_terminal_detection_witness :
    (poll_analysis_job_to_completion 7 10 600000
        [PollStep.mk (JobData.mk "QUEUED" "0") 1, PollStep.mk (JobData.mk "RUNNING" "50") 11,
         PollStep.mk (JobData.mk "FINISHED" "100") 21] =
      .ok (some (JobData.mk "FINISHED" "100", 3, 2))) ∧
    (poll_analysis_job_to_completion 7 10 600000
        [PollStep.mk (JobData.mk "QUEUED" "0") 1,
         PollStep.mk (JobData.mk "RUNNING" "50") 600001] =
      .error (.jobError
        "Analysis job ID 7 did not complete within 600000 seconds. Last status: RUNNING")) := by
  constructor
  · exact ((C9_poll_terminal_detection 7 10 600000
      [PollStep.mk (JobData.mk "QUEUED" "0") 1, PollStep.mk (JobData.mk "RUNNING" "50") 11]
      (PollStep.mk (JobData.mk "FINISHED" "100") 21) []
      (by decide) (by decide) (by decide) (by decide)).1 (by decide)).trans (by decide)
  · exact ((C9_poll_terminal_detection 7 10 600000
      [PollStep.mk (JobData.mk "QUEUED" "0") 1]
      (PollStep.mk (JobData.mk "RUNNING" "50") 600001) []
      (by decide) (by decide) (by decide) (by decide)).2 (by decide) (by decide)).trans (by decide)

/-! ## C2: engine-version merge in the region/peril simulation set -/

theorem splitCommaAux_noComma (cs : List Char) (hc : ',' ∉ cs) :
    ∀ cur, splitCommaAux cur cs = [String.mk (cur.reverse ++ cs)] := by
  induction cs with
  | nil => intro cur; simp [splitCommaAux]
  | cons c t ih =>
    intro cur
    have hne : c ≠ ',' := fun h => hc (h ▸ List.mem_cons_self c t)
    have ht : ',' ∉ t := fun h => hc (List.mem_cons_of_mem c h)
    simp [splitCommaAux, hne, ih ht]

theorem splitComma_noComma (s : String) (hc : ',' ∉ s.toList) : splitComma s = [s] := by
  cases s with
  | mk data => simpa [splitComma, String.toList] using splitCommaAux_noComma data hc []

theorem insertDesc_perm (x : String) (l : List String) : List.Perm (insertDesc x l) (x :: l) := by
  induction l with
  | nil => simp [insertDesc]
  | cons y t ih =>
    simp only [insertDesc]
    split
    · exact List.Perm.refl _
    · exact ((ih.cons y).trans (List.Perm.swap x y t))

theorem sortDesc_perm (l : List String) : List.Perm (sortDesc l) l := by
  induction l with
  | nil => simp [sortDesc]
  | cons x t ih => exact (insertDesc_perm x (sortDesc t)).trans (ih.cons x)

/-- C2: two constructed entries (each carrying a single engine-version token)
that agree on every field except `engineVersion` merge into a single entry
whose `engineVersion` is the deduplicated union of the two version tokens,
sorted in descending lexical order and joined with commas, and the resulting
token list holds no duplicates. -/
theorem C2_engine_version_merge (e1 e2 : RegionPerilEntry)
    (hk : mergeKey e1 = mergeKey e2)
    (h1 : ',' ∉ e1.engineVersion.toList) (_h2 : ',' ∉ e2.engineVersion.toList) :
    mergeEntries [e1, e2] =
      [{ e1 with engineVersion :=
          joinComma (sortDesc (if e2.engineVersion = e1.engineVersion
            then [e1.engineVersion] else [e1.engineVersion, e2.engineVersion])) }] ∧
    (sortDesc (if e2.engineVersion = e1.engineVersion
      then [e1.engineVersion] else [e1.engineVersion, e2.engineVersion])).Nodup := by
  have tokens : unionVersions e1.engineVersion e2.engineVersion =
      if e2.engineVersion = e1.engineVersion then [e1.engineVersion]
      else [e1.engineVersion, e2.engineVersion] := by
    simp [unionVersions, splitComma_noComma _ h1, List.eraseDups, List.eraseDups.loop]
  constructor
  · simp [mergeEntries, mergeStep, ← hk, List.lookup, mergeInto, tokens]
  · split
    · simp [sortDesc, insertDesc]
    · rename_i hne
      exact ((sortDesc_perm _).nodup_iff).mpr (by simp [Ne.symm hne])

/-- C2 witness: instance of `C2_engine_version_merge` for two entries that
differ only in `engineVersion` = `"RL22"` vs `"RL23"`: they merge into a single
entry with `engineVersion = "RL23,RL22"` (descending order), with no duplicated
token. -/
theorem C2_engine_version_merge_witness :
    mergeEntries
        [RegionPerilEntry.mk "RL22" 1 "NAEQ" "23" "EQ" "NA" 50000 7,
         RegionPerilEntry.mk "RL23" 1 "NAEQ" "23" "EQ" "NA" 50000 7] =
      [RegionPerilEntry.mk "RL23,RL22" 1 "NAEQ" "23" "EQ" "NA" 50000 7] ∧
    (splitComma "RL23,RL22").Nodup := by
  have h := C2_engine_version_merge
    (RegionPerilEntry.mk "RL22" 1 "NAEQ" "23" "EQ" "NA" 50000 7)
    (RegionPerilEntry.mk "RL23" 1 "NAEQ" "23" "EQ" "NA" 50000 7)
    (by decide) (by decide) (by decide)
  exact ⟨h.1.trans (by decide), by decide⟩

/-! ## C3: skip-missing grouping semantics -/

theorem resolveMembers_skip (env : GroupingEnv) (m : List (String × String)) (g : List String) :
    ∀ (names : List String), (∀ n ∈ names, (resolveSearch env m g n).length ≤ 1) →
    resolveMembers env m g true names = .ok
      (names.filterMap (fun n => ((resolveSearch env m g n).head?).map (fun r => r.uri)),
       names.filterMap (fun n => ((resolveSearch env m g n).head?).map (fun r => r.analysisId)),
       names.filter (fun n => (resolveSearch env m g n).isEmpty),
       names.filter (fun n => !(resolveSearch env m g n).isEmpty)) := by
  intro names
  induction names with
  | nil => intro _; simp [resolveMembers]
  | cons n t ih =>
    intro hnd
    have ihh := ih (fun x hx => hnd x (List.mem_cons_of_mem n hx))
    cases hrs : resolveSearch env m g n with
    | nil =>
      simp [resolveMembers, hrs, ihh, exceptOkBind]
    | cons r rt =>
      cases rt with
      | nil =>
        simp [resolveMembers, hrs, ihh, exceptOkBind]
      | cons r2 rt2 =>
        exfalso
        have := hnd n (List.mem_cons_self n t)
        rw [hrs] at this
        simp at this

theorem filterMap_length_eq_filter_length {α : Type} (f : String → Option α) (p : String → Bool) :
    ∀ (names : List String), (∀ n ∈ names, (f n).isSome = p n) →
    (names.filterMap f).length = (names.filter p).length := by
  intro names
  induction names with
  | nil => intro _; simp
  | cons n t ih =>
    intro h
    have hn := h n (List.mem_cons_self n t)
    have iht := ih (fun x hx => h x (List.mem_cons_of_mem n hx))
    cases hf : f n with
    | none =>
      have : p n = false := by rw [← hn, hf]; rfl
      simp [hf, this, iht]
    | some a =>
      have : p n = true := by rw [← hn, hf]; rfl
      simp [hf, this, iht]

/-- C3: with `skip_missing = true` and every member search unambiguous, each
member name whose search yields no match is recorded in `skipped_items` and
each resolved name in `included_items`; if at least one member resolves, one
request is POSTed to the group-creation endpoint and the result has
`skipped = false` with the job id; if every member is missing, no request is
made to the group-creation endpoint and the result has `skipped = true`,
`job_id` absent and `included_items` empty. -/
theorem C3_skip_missing_grouping (env : GroupingEnv) (group_name : String) (names : List String)
    (stp : Bool) (nsim : Int) (pdl : Bool) (rws sws swe : String)
    (rps : Option (List RegionPerilEntry)) (desc : String) (cur : Option String)
    (m : List (String × String)) (g : List String)
    (hgn : group_name ≠ "") (hne : names ≠ [])
    (hpre : env.searchByName group_name = [])
    (hnd : ∀ n ∈ names, (resolveSearch env m g n).length ≤ 1) :
    ∃ res posts,
      submit_analysis_grouping_job env group_name names stp nsim pdl rws sws swe rps desc cur m g
        true = .ok (res, posts) ∧
      res.skipped_items = names.filter (fun n => (resolveSearch env m g n).isEmpty) ∧
      res.included_items = names.filter (fun n => !(resolveSearch env m g n).isEmpty) ∧
      (names.filter (fun n => !(resolveSearch env m g n).isEmpty) ≠ [] →
        res.skipped = false ∧ res.job_id = some env.submittedJobId ∧ posts.length = 1) ∧
      (names.filter (fun n => !(resolveSearch env m g n).isEmpty) = [] →
        res.skipped = true ∧ res.job_id = none ∧ posts = []) := by
  have hni : names.isEmpty = false := by simpa [List.isEmpty_iff] using hne
  have hlen : (names.filterMap
        (fun n => ((resolveSearch env m g n).head?).map (fun r => r.uri))).length =
      (names.filter (fun n => !(resolveSearch env m g n).isEmpty)).length := by
    apply filterMap_length_eq_filter_length
    intro n _
    cases hrs : resolveSearch env m g n <;> simp [hrs]
  by_cases hfound : names.filter (fun n => !(resolveSearch env m g n).isEmpty) = []
  · have huris : (names.filterMap
        (fun n => ((resolveSearch env m g n).head?).map (fun r => r.uri))) = [] := by
      rw [← List.length_eq_zero, hlen, hfound]
      rfl
    refine ⟨GroupingResult.mk none true
        (names.filter (fun n => (resolveSearch env m g n).isEmpty)) []
        (some ("All " ++
          toString (names.filter (fun n => (resolveSearch env m g n).isEmpty)).length ++
          " analyses/groups were not found")) none, [],
      ?_, rfl, by rw [hfound], fun h => absurd hfound h, fun _ => ⟨rfl, rfl, rfl⟩⟩
    simp [submit_analysis_grouping_job, validate_non_empty_string, hgn, validate_list_not_empty,
      hni, hpre, resolveMembers_skip env m g names hnd, exceptOkBind, huris]
  · have huris : (names.filterMap
        (fun n => ((resolveSearch env m g n).head?).map (fun r => r.uri))).isEmpty = false := by
      cases hu : names.filterMap
          (fun n => ((resolveSearch env m g n).head?).map (fun r => r.uri)) with
      | nil => exact absurd (List.length_eq_zero.mp (by rw [← hlen, hu]; rfl)) hfound
      | cons a t => rfl
    refine ⟨GroupingResult.mk (some env.submittedJobId) false
        (names.filter (fun n => (resolveSearch env m g n).isEmpty))
        (names.filter (fun n => !(resolveSearch env m g n).isEmpty)) none
        (some (GroupRequest.mk "analyses"
          (names.filterMap (fun n => ((resolveSearch env m g n).head?).map (fun r => r.uri)))
          (GroupSettings.mk group_name (cur.getD env.defaultCurrency)
            (if (0 < (match rps with
              | some r => r
              | none => env.buildRegionPerilSimulationSet
                  (names.filterMap (fun n =>
                    ((resolveSearch env m g n).head?).map (fun r => r.analysisId))) :
                List RegionPerilEntry).length)
              then true else stp)
            pdl nsim rws sws swe
            (match rps with
              | some r => r
              | none => env.buildRegionPerilSimulationSet
                  (names.filterMap (fun n =>
                    ((resolveSearch env m g n).head?).map (fun r => r.analysisId))))
            desc))),
      [GroupRequest.mk "analyses"
          (names.filterMap (fun n => ((resolveSearch env m g n).head?).map (fun r => r.uri)))
          (GroupSettings.mk group_name (cur.getD env.defaultCurrency)
            (if (0 < (match rps with
              | some r => r
              | none => env.buildRegionPerilSimulationSet
                  (names.filterMap (fun n =>
                    ((resolveSearch env m g n).head?).map (fun r => r.analysisId))) :
                List RegionPerilEntry).length)
              then true else stp)
            pdl nsim rws sws swe
            (match rps with
              | some r => r
              | none => env.buildRegionPerilSimulationSet
                  (names.filterMap (fun n =>
                    ((resolveSearch env m g n).head?).map (fun r => r.analysisId))))
            desc)],
      ?_, rfl, rfl, fun _ => ⟨rfl, rfl, rfl⟩, fun h => absurd h hfound⟩
    have hforall : ¬ (∀ a ∈ names, resolveSearch env m g a = []) := fun hall =>
      hfound (List.filter_eq_nil_iff.mpr (fun a ha => by simp [hall a ha]))
    simp [submit_analysis_grouping_job, validate_non_empty_string, hgn, validate_list_not_empty,
      hni, hpre, resolveMembers_skip env m g names hnd, exceptOkBind, huris, hforall]

/-- Concrete grouping environment for the C3 witness: only the analysis name
`"A1"` resolves; every other search yields no match. -/
def C3_env_partial : GroupingEnv :=
  GroupingEnv.mk
    (fun n => if n = "A1" then [GroupAnalysisRec.mk "uri-a1" 101] else [])
    (fun _ _ => []) "USD" (fun _ => []) 55

/-- Concrete grouping environment for the C3 witness: no search resolves. -/
def C3_env_missing : GroupingEnv :=
  GroupingEnv.mk (fun _ => []) (fun _ _ => []) "USD" (fun _ => []) 55

/-- C3 witness: instances of `C3_skip_missing_grouping`: with members
`["A1", "A2", "A3"]` of which only `"A1"` resolves, the result has
`skipped = false`, `included_items = ["A1"]`, `skipped_items = ["A2", "A3"]`
and one POST to the group-creation endpoint; with all three missing, the
result has `skipped = true`, `job_id` absent, `included_items` empty and no
POST at all. -/
theorem C3_skip_missing_grouping_witness :
    (∃ res posts,
      submit_analysis_grouping_job C3_env_partial "G" ["A1", "A2", "A3"] false 50000 false
        "01/01/2021" "01/01/2021" "12/31/2021" none "" none [] [] true = .ok (res, posts) ∧
      res.skipped_items = ["A2", "A3"] ∧ res.included_items = ["A1"] ∧
      res.skipped = false ∧ res.job_id = some 55 ∧ posts.length = 1) ∧
    (∃ res posts,
      submit_analysis_grouping_job C3_env_missing "G" ["A1", "A2", "A3"] false 50000 false
        "01/01/2021" "01/01/2021" "12/31/2021" none "" none [] [] true = .ok (res, posts) ∧
      res.skipped = true ∧ res.job_id = none ∧ res.included_items = [] ∧ posts = []) := by
  constructor
  · obtain ⟨res, posts, heq, h1, h2, h3, _⟩ :=
      C3_skip_missing_grouping C3_env_partial "G" ["A1", "A2", "A3"] false 50000 false
        "01/01/2021" "01/01/2021" "12/31/2021" none "" none [] []
        (by decide) (by decide) (by decide)
        (by intro n hn; fin_cases hn <;> decide)
    have h3' := h3 (by decide)
    exact ⟨res, posts, heq, h1.trans (by decide), h2.trans (by decide),
      h3'.1, h3'.2.1, h3'.2.2⟩
  · obtain ⟨res, posts, heq, _, h2, _, h4⟩ :=
      C3_skip_missing_grouping C3_env_missing "G" ["A1", "A2", "A3"] false 50000 false
        "01/01/2021" "01/01/2021" "12/31/2021" none "" none [] []
        (by decide) (by decide) (by decide)
        (by intro n hn; fin_cases hn <;> decide)
    have h4' := h4 (by decide)
    exact ⟨res, posts, heq, h4'.1, h4'.2.1, h2.trans (by decide), h4'.2.2⟩

/-! ## C1: job-type derivation and event-rate-scheme requirement -/

/-- C1: on the happy path of `submit_portfolio_analysis_job` (unique EDM and
portfolio, resolvable profiles, no treaties), the submitted job type is `"HD"`
exactly when the `softwareVersionCode` of the resolved model profile contains the
substring `"HD"` and `"DLM"` otherwise; with no event-rate-scheme name and a
`"DLM"` job type the call raises a reference-data error before submitting
anything; with no scheme name and an `"HD"` job type it succeeds and the
settings carry no `eventRateSchemeId` key. -/
theorem C1_job_type_derivation
    (e : EdmSearchRec) (p : PortfolioSearchRec) (mp : ModelProfileItem)
    (mps : List ModelProfileItem) (mcount : Nat) (op : OutputProfileItem)
    (ops : List OutputProfileItem) (ers : EventRateSchemeItem)
    (erss : List EventRateSchemeItem) (ecount : Nat) (tags : List Int) (cur : String)
    (jid : Int) (ts : List TreatySearchRec)
    (edm pf job ap opn : String) (curArg : Option String) (fd tcu : Bool)
    (mlt : Rat) (nme : Int)
    (h1 : edm ≠ "") (h2 : pf ≠ "") (h3 : job ≠ "") (h4 : ap ≠ "") (h5 : opn ≠ "")
    (hmc : mcount ≠ 0) (hec : ecount ≠ 0) :
    (∀ n, ∃ body,
      submit_portfolio_analysis_job
        (AnalysisEnv.mk 0 [e] [p] ts (ModelProfileResp.mk mcount (mp :: mps)) (op :: ops)
          (EventRateSchemeResp.mk ecount (ers :: erss)) tags cur jid)
        edm pf job ap opn (some n) [] [] curArg false fd mlt tcu nme = .ok (jid, body) ∧
      body.type = (if containsSubstr mp.softwareVersionCode "HD" then "HD" else "DLM") ∧
      ((body.type = "HD") ↔ containsSubstr mp.softwareVersionCode "HD" = true) ∧
      body.settings.eventRateSchemeId = some ers.eventRateSchemeId) ∧
    (containsSubstr mp.softwareVersionCode "HD" = false →
      submit_portfolio_analysis_job
        (AnalysisEnv.mk 0 [e] [p] ts (ModelProfileResp.mk mcount (mp :: mps)) (op :: ops)
          (EventRateSchemeResp.mk ecount (ers :: erss)) tags cur jid)
        edm pf job ap opn none [] [] curArg false fd mlt tcu nme =
        .error (.referenceDataError "Event rate scheme is required for DLM analyses")) ∧
    (containsSubstr mp.softwareVersionCode "HD" = true →
      ∃ body,
        submit_portfolio_analysis_job
          (AnalysisEnv.mk 0 [e] [p] ts (ModelProfileResp.mk mcount (mp :: mps)) (op :: ops)
            (EventRateSchemeResp.mk ecount (ers :: erss)) tags cur jid)
          edm pf job ap opn none [] [] curArg false fd mlt tcu nme = .ok (jid, body) ∧
        body.type = "HD" ∧ body.settings.eventRateSchemeId = none) := by
  refine ⟨fun n => ?_, fun hdlm => ?_, fun hhd => ?_⟩
  · by_cases hhd : containsSubstr mp.softwareVersionCode "HD" = true
    · refine ⟨AnalysisJobRequest.mk p.uri "portfolio" "HD"
        (AnalysisSettings.mk job mp.id op.id [] tags (curArg.getD cur) fd mlt tcu nme
          (some ers.eventRateSchemeId)), ?_, by simp [hhd], by simp [hhd], rfl⟩
      simp [submit_portfolio_analysis_job, validate_non_empty_string,
        h1, h2, h3, h4, h5, hmc, hec, hhd, exceptOkBind]
    · refine ⟨AnalysisJobRequest.mk p.uri "portfolio" "DLM"
        (AnalysisSettings.mk job mp.id op.id [] tags (curArg.getD cur) fd mlt tcu nme
          (some ers.eventRateSchemeId)), ?_, by simp [hhd], by simp [hhd], rfl⟩
      simp [submit_portfolio_analysis_job, validate_non_empty_string,
        h1, h2, h3, h4, h5, hmc, hec, hhd, exceptOkBind]
  · simp [submit_portfolio_analysis_job, validate_non_empty_string,
      h1, h2, h3, h4, h5, hmc, hec, hdlm, exceptOkBind, exceptThrowBind]
  · refine ⟨AnalysisJobRequest.mk p.uri "portfolio" "HD"
      (AnalysisSettings.mk job mp.id op.id [] tags (curArg.getD cur) fd mlt tcu nme none),
      ?_, rfl, rfl⟩
    simp [submit_portfolio_analysis_job, validate_non_empty_string,
      h1, h2, h3, h4, h5, hmc, hec, hhd, exceptOkBind]

/-- C1 witness: instances of `C1_job_type_derivation` with model-profile
software-version codes `"RL23HD"` (job type `"HD"`; submitting without a
scheme succeeds and omits `eventRateSchemeId`) and `"RL23"` (job type `"DLM"`;
submitting without a scheme raises the reference-data error). -/
theorem C1_job_type_derivation_witness :
    (∃ body, submit_portfolio_analysis_job
        (AnalysisEnv.mk 0 [EdmSearchRec.mk 3 "EDM1"] [PortfolioSearchRec.mk 4 "uri-p"] []
          (ModelProfileResp.mk 1 [ModelProfileItem.mk 10 (some "EQ") (some "NAEQ") "RL23HD"])
          [OutputProfileItem.mk 20] (EventRateSchemeResp.mk 1 [EventRateSchemeItem.mk 30])
          [] "USD" 77)
        "EDM1" "P1" "J1" "MP1" "OP1" (some "ERS1") [] [] none false false 1 true 1 =
        .ok (77, body) ∧ body.type = "HD") ∧
    (∃ body, submit_portfolio_analysis_job
        (AnalysisEnv.mk 0 [EdmSearchRec.mk 3 "EDM1"] [PortfolioSearchRec.mk 4 "uri-p"] []
          (ModelProfileResp.mk 1 [ModelProfileItem.mk 10 (some "EQ") (some "NAEQ") "RL23HD"])
          [OutputProfileItem.mk 20] (EventRateSchemeResp.mk 1 [EventRateSchemeItem.mk 30])
          [] "USD" 77)
        "EDM1" "P1" "J1" "MP1" "OP1" none [] [] none false false 1 true 1 =
        .ok (77, body) ∧ body.type = "HD" ∧ body.settings.eventRateSchemeId = none) ∧
    (submit_portfolio_analysis_job
        (AnalysisEnv.mk 0 [EdmSearchRec.mk 3 "EDM1"] [PortfolioSearchRec.mk 4 "uri-p"] []
          (ModelProfileResp.mk 1 [ModelProfileItem.mk 10 (some "EQ") (some "NAEQ") "RL23"])
          [OutputProfileItem.mk 20] (EventRateSchemeResp.mk 1 [EventRateSchemeItem.mk 30])
          [] "USD" 77)
        "EDM1" "P1" "J1" "MP1" "OP1" none [] [] none false false 1 true 1 =
        .error (.referenceDataError "Event rate scheme is required for DLM analyses")) ∧
    (∃ body, submit_portfolio_analysis_job
        (AnalysisEnv.mk 0 [EdmSearchRec.mk 3 "EDM1"] [PortfolioSearchRec.mk 4 "uri-p"] []
          (ModelProfileResp.mk 1 [ModelProfileItem.mk 10 (some "EQ") (some "NAEQ") "RL23"])
          [OutputProfileItem.mk 20] (EventRateSchemeResp.mk 1 [EventRateSchemeItem.mk 30])
          [] "USD" 77)
        "EDM1" "P1" "J1" "MP1" "OP1" (some "ERS1") [] [] none false false 1 true 1 =
        .ok (77, body) ∧ body.type = "DLM") := by
  have hA := C1_job_type_derivation (EdmSearchRec.mk 3 "EDM1") (PortfolioSearchRec.mk 4 "uri-p")
    (ModelProfileItem.mk 10 (some "EQ") (some "NAEQ") "RL23HD") [] 1
    (OutputProfileItem.mk 20) [] (EventRateSchemeItem.mk 30) [] 1 [] "USD" 77 []
    "EDM1" "P1" "J1" "MP1" "OP1" none false true 1 1
    (by decide) (by decide) (by decide) (by decide) (by decide) (by decide) (by decide)
  have hB := C1_job_type_derivation (EdmSearchRec.mk 3 "EDM1") (PortfolioSearchRec.mk 4 "uri-p")
    (ModelProfileItem.mk 10 (some "EQ") (some "NAEQ") "RL23") [] 1
    (OutputProfileItem.mk 20) [] (EventRateSchemeItem.mk 30) [] 1 [] "USD" 77 []
    "EDM1" "P1" "J1" "MP1" "OP1" none false true 1 1
    (by decide) (by decide) (by decide) (by decide) (by decide) (by decide) (by decide)
  obtain ⟨b1, he1, ht1, _, _⟩ := hA.1 "ERS1"
  obtain ⟨b2, he2, ht2, hk2⟩ := hA.2.2 (by decide)
  obtain ⟨b3, he3, ht3, _, _⟩ := hB.1 "ERS1"
  exact ⟨⟨b1, he1, ht1.trans (by decide)⟩, ⟨b2, he2, ht2, hk2⟩,
    hB.2.1 (by decide), ⟨b3, he3, ht3.trans (by decide)⟩⟩

/-! ## C7: S3 upload-URL parsing -/

theorem append_name_mid (p u s m : String) : ∃ a b, (p ++ u ++ s ++ m) = (a ++ u ++ b) :=
  ⟨p, s ++ m, String.append_assoc (p ++ u) s m⟩

/-- C7: the virtual-hosted and the path-style example URLs both parse to bucket
`"my-bucket"` and key `"folder/file.bak"`; a URL whose host matches neither S3
shape fails with a validation error naming the URL; every failure of
`_parse_s3_url` is a validation error whose message contains the offending URL;
and a successful parse never returns an empty bucket or key (equivalently, an
empty bucket or key always raises). -/
theorem C7_s3_url_parsing :
    (_parse_s3_url "https://my-bucket.s3.amazonaws.com/folder/file.bak" =
      .ok ("my-bucket", "folder/file.bak")) ∧
    (_parse_s3_url "https://s3.eu-west-1.amazonaws.com/my-bucket/folder/file.bak" =
      .ok ("my-bucket", "folder/file.bak")) ∧
    (∀ url host path, urlparseHostPath url = (host, path) →
      containsSubstr host ".s3." = false → containsSubstr host ".s3-" = false →
      pyStartsWith host "s3." = false → pyStartsWith host "s3-" = false →
      _parse_s3_url url = .error (.validationError
        ("Failed to parse S3 URL \x27" ++ url ++ "\x27: " ++
          ("Unrecognized S3 URL format: " ++ url)))) ∧
    (∀ url e, _parse_s3_url url = .error e → ∃ a b, e = .validationError (a ++ url ++ b)) ∧
    (∀ url bucket key, _parse_s3_url url = .ok (bucket, key) → bucket ≠ "" ∧ key ≠ "") := by
  refine ⟨by decide, by decide, ?_, ?_, ?_⟩
  · intro url host path hu h1 h2 h3 h4
    simp [_parse_s3_url, hu, h1, h2, h3, h4]
  · intro url e h
    simp only [_parse_s3_url] at h
    split at h
    · split at h
      · simp only [Except.error.injEq] at h
        obtain ⟨a, b, hab⟩ := append_name_mid "Failed to parse S3 URL \x27" url
          "\x27: Could not extract bucket/key from URL: " url
        exact ⟨a, b, by rw [← h, hab]⟩
      · simp at h
    · rename_i m hmeq
      simp only [Except.error.injEq] at h
      obtain ⟨a, b, hab⟩ := append_name_mid "Failed to parse S3 URL \x27" url "\x27: " m
      exact ⟨a, b, by rw [← h, hab]⟩
  · intro url bucket key h
    simp only [_parse_s3_url] at h
    split at h
    · split at h
      · simp at h
      · rename_i hcond
        simp at h hcond
        exact ⟨h.1 ▸ hcond.1, h.2 ▸ hcond.2⟩
    · simp at h

/-- C7 witness: instances of `C7_s3_url_parsing` at the concrete URL
`"https://example.com/folder/file.bak"`, whose host matches neither S3 shape:
parsing fails with a validation error whose message contains the URL. -/
theorem C7_s3_url_parsing_witness :
    (_parse_s3_url "https://example.com/folder/file.bak" =
      .error (.validationError
        ("Failed to parse S3 URL \x27https://example.com/folder/file.bak\x27: " ++
          ("Unrecognized S3 URL format: https://example.com/folder/file.bak")))) ∧
    (∃ a b, IRPError.validationError
        ("Failed to parse S3 URL \x27https://example.com/folder/file.bak\x27: " ++
          ("Unrecognized S3 URL format: https://example.com/folder/file.bak")) =
      .validationError (a ++ "https://example.com/folder/file.bak" ++ b)) := by
  have h1 := C7_s3_url_parsing.2.2.1 "https://example.com/folder/file.bak"
    "example.com" "/folder/file.bak" (by decide) (by decide) (by decide) (by decide) (by decide)
  have h1' : _parse_s3_url "https://example.com/folder/file.bak" =
      .error (.validationError
        ("Failed to parse S3 URL \x27https://example.com/folder/file.bak\x27: " ++
          ("Unrecognized S3 URL format: https://example.com/folder/file.bak"))) :=
    h1.trans (by decide)
  have h2 := C7_s3_url_parsing.2.2.2.1 "https://example.com/folder/file.bak" _ h1'
  exact ⟨h1', h2⟩

/-! ## C6 and C10: SQL parameter substitution -/

theorem exceptPureBind {ε α β : Type} (a : α) (f : α → Except ε β) :
    ((pure a : Except ε α) >>= f) = f a := rfl

theorem templateSub_valueQuery (esc : String) :
    templateSubstitute "SELECT * FROM t WHERE id = \x7b\x7b id \x7d\x7d" [("id", esc)] =
      .ok ("SELECT * FROM t WHERE id = " ++ esc) := by
  have h : templateSubFuel [("id", esc)]
      ("SELECT * FROM t WHERE id = \x7b\x7b id \x7d\x7d".toList.length + 1)
      "SELECT * FROM t WHERE id = \x7b\x7b id \x7d\x7d".toList =
      .ok ("SELECT * FROM t WHERE id = ".toList ++ (esc.toList ++ [])) := rfl
  simp only [templateSubstitute, h, Except.map, List.append_nil]
  cases esc with
  | mk d => rfl

theorem templateSub_bracketQuery (esc : String) :
    templateSubstitute "USE [\x7b\x7b db \x7d\x7d]" [("db", esc)] =
      .ok ("USE [" ++ esc ++ "]") := by
  have h : templateSubFuel [("db", esc)]
      ("USE [\x7b\x7b db \x7d\x7d]".toList.length + 1)
      "USE [\x7b\x7b db \x7d\x7d]".toList =
      .ok ("USE [".toList ++ (esc.toList ++ "]".toList)) := rfl
  simp only [templateSubstitute, h, Except.map]
  cases esc with
  | mk d =>
    exact congrArg (fun l => Except.ok (String.mk l))
      (List.append_assoc "USE [".toList d "]".toList).symm

/-- C6: in the value context `"SELECT * FROM t WHERE id = \x7b\x7b id \x7d\x7d"`
the parameter is escaped and quoted per type (absent → `NULL`, booleans →
`1`/`0`, integers unquoted, strings single-quoted with embedded single quotes
doubled); in the identifier context `"USE [\x7b\x7b db \x7d\x7d]"` a string
made of alphanumerics, underscore, hyphen, space or slash is substituted raw
and unquoted, while a string holding any other character raises an error
naming the parameter `db`. -/
theorem C6_sql_context_substitution :
    (∀ v : PyValue,
      _substitute_named_parameters "SELECT * FROM t WHERE id = \x7b\x7b id \x7d\x7d"
          [("id", v)] =
        .ok ("SELECT * FROM t WHERE id = " ++
          (match v with
            | .vNone => "NULL"
            | .vBool b => if b then "1" else "0"
            | .vInt n => toString n
            | .vStr s => "\x27" ++ doubleApos s ++ "\x27"))) ∧
    (∀ s : String, s.toList.all identifierCharOk = true →
      _substitute_named_parameters "USE [\x7b\x7b db \x7d\x7d]" [("db", .vStr s)] =
        .ok ("USE [" ++ s ++ "]")) ∧
    (∀ s : String, s.toList.all identifierCharOk = false →
      _substitute_named_parameters "USE [\x7b\x7b db \x7d\x7d]" [("db", .vStr s)] =
        .error (.valueError ("Invalid identifier value for parameter \x27db\x27: " ++ s ++
          ". Identifiers can only contain alphanumeric characters, " ++
          "underscores, hyphens, and spaces."))) := by
  have hidv : isIdentifierContext "id" "SELECT * FROM t WHERE id = \x7b\x7b id \x7d\x7d" = false :=
    by decide
  have hidb : isIdentifierContext "db" "USE [\x7b\x7b db \x7d\x7d]" = true := by decide
  refine ⟨fun v => ?_, fun s hok => ?_, fun s hbad => ?_⟩
  · have h : _substitute_named_parameters "SELECT * FROM t WHERE id = \x7b\x7b id \x7d\x7d"
        [("id", v)] = .ok ("SELECT * FROM t WHERE id = " ++ _escape_sql_value v) := by
      simp only [_substitute_named_parameters, escapeParams, hidv, Bool.false_eq_true, if_false,
        List.isEmpty, exceptOkBind, exceptPureBind, templateSub_valueQuery]
    cases v <;> exact h
  · simp only [_substitute_named_parameters, escapeParams, hidb, if_true, hok,
      Bool.false_eq_true, if_false, List.isEmpty, exceptOkBind, exceptPureBind, pyStr,
      templateSub_bracketQuery]
  · simp only [_substitute_named_parameters, escapeParams, hidb, if_true, hbad,
      Bool.false_eq_true, if_false, List.isEmpty, exceptOkBind, exceptThrowBind, exceptErrBind]
    rfl

/-- C6 witness: instances of `C6_sql_context_substitution`:
`"USE [\x7b\x7b db \x7d\x7d]"` with `db = "Sales_01"` yields `"USE [Sales_01]"`
with no quoting; `"SELECT * FROM t WHERE id = \x7b\x7b id \x7d\x7d"` with
`id = 5` yields `"...= 5"`; and the identifier value `"Sales;01"` (a semicolon)
raises the error naming `db`. -/
theorem C6_sql_context_substitution_witness :
    (_substitute_named_parameters "USE [\x7b\x7b db \x7d\x7d]" [("db", .vStr "Sales_01")] =
      .ok "USE [Sales_01]") ∧
    (_substitute_named_parameters "SELECT * FROM t WHERE id = \x7b\x7b id \x7d\x7d"
        [("id", .vInt 5)] = .ok "SELECT * FROM t WHERE id = 5") ∧
    (_substitute_named_parameters "USE [\x7b\x7b db \x7d\x7d]" [("db", .vStr "Sales;01")] =
      .error (.valueError ("Invalid identifier value for parameter \x27db\x27: Sales;01" ++
        ". Identifiers can only contain alphanumeric characters, " ++
        "underscores, hyphens, and spaces."))) :=
  ⟨(C6_sql_context_substitution.2.1 "Sales_01" (by decide)).trans (by decide),
   (C6_sql_context_substitution.1 (.vInt 5)).trans (by decide),
   (C6_sql_context_substitution.2.2 "Sales;01" (by decide)).trans (by decide)⟩

/-- C10: the identifier-versus-value classification is decided once per
parameter name by searching the whole query: whenever any occurrence matches an
identifier-context pattern the single escaped value of the parameter is its raw
string (subject only to the identifier character-set check), and with no
identifier-context occurrence anywhere it is the escaped-and-quoted value; the
template then substitutes that one value at every occurrence, so in
`"USE [\x7b\x7b db \x7d\x7d] WHERE x = \x7b\x7b db \x7d\x7d"` even the
plain-value occurrence of `db` is substituted raw, while in
`"SELECT a WHERE x = \x7b\x7b db \x7d\x7d AND y = \x7b\x7b db \x7d\x7d"` every
occurrence is quoted. -/
theorem C10_global_context_classification :
    (∀ (k q : String) (v : PyValue),
      isIdentifierContext k q = true →
      (∀ s, v = .vStr s → s.toList.all identifierCharOk = true) →
      escapeParams q [(k, v)] = .ok [(k, pyStr v)]) ∧
    (∀ (k q : String) (v : PyValue),
      isIdentifierContext k q = false →
      escapeParams q [(k, v)] = .ok [(k, _escape_sql_value v)]) ∧
    (_substitute_named_parameters "USE [\x7b\x7b db \x7d\x7d] WHERE x = \x7b\x7b db \x7d\x7d"
        [("db", .vStr "S1")] = .ok "USE [S1] WHERE x = S1") ∧
    (_substitute_named_parameters
        "SELECT a WHERE x = \x7b\x7b db \x7d\x7d AND y = \x7b\x7b db \x7d\x7d"
        [("db", .vStr "S1")] = .ok "SELECT a WHERE x = \x27S1\x27 AND y = \x27S1\x27") := by
  refine ⟨fun k q v hid hok => ?_, fun k q v hid => ?_, by decide, by decide⟩
  · cases v with
    | vStr s =>
      simp only [escapeParams, hid, if_true, hok s rfl, exceptOkBind, exceptPureBind]
    | vNone => simp only [escapeParams, hid, if_true, exceptOkBind, exceptPureBind]
    | vBool b => simp only [escapeParams, hid, if_true, exceptOkBind, exceptPureBind]
    | vInt n => simp only [escapeParams, hid, if_true, exceptOkBind, exceptPureBind]
  · simp only [escapeParams, hid, Bool.false_eq_true, if_false, exceptOkBind, exceptPureBind]

/-- C10 witness: instances of `C10_global_context_classification`: in the
mixed query the parameter `db` (identifier somewhere) is kept raw, and in a
pure value query it is escaped and quoted. -/
theorem C10_global_context_classification_witness :
    (escapeParams "USE [\x7b\x7b db \x7d\x7d] WHERE x = \x7b\x7b db \x7d\x7d"
        [("db", .vStr "S1")] = .ok [("db", "S1")]) ∧
    (escapeParams "SELECT a WHERE x = \x7b\x7b db \x7d\x7d AND y = \x7b\x7b db \x7d\x7d"
        [("db", .vStr "S1")] = .ok [("db", "\x27S1\x27")]) :=
  ⟨(C10_global_context_classification.1
      "db" "USE [\x7b\x7b db \x7d\x7d] WHERE x = \x7b\x7b db \x7d\x7d" (.vStr "S1")
      (by decide) (fun s hs => by cases hs; decide)).trans (by decide),
   (C10_global_context_classification.2.1
      "db" "SELECT a WHERE x = \x7b\x7b db \x7d\x7d AND y = \x7b\x7b db \x7d\x7d" (.vStr "S1")
      (by decide)).trans (by decide)⟩

end Irp
